import Mathlib

/-!
Verification of the file-scanning engine in `src/python/antivirus.py`.

The development embeds the scanner shallowly:

* File bytes are `List Nat` (each element a byte value `< 256`; numpy's
  histogram indexing assumes this, and lemmas that need it take it as a
  hypothesis).
* `hashlib.md5` / `hashlib.sha256` are implemented concretely (`md5Hex`,
  `sha256Hex`, validated against standard test vectors); the incremental
  accumulator semantics of `update`/`hexdigest` — repeated `update` calls are
  equivalent to a single call on the concatenation — is modelled by the
  accumulated byte stream (`digestUpdate` = append, finalize = hash of the
  accumulated stream), which is the documented contract of `hashlib`.
* `scipy.stats.entropy(probs)` with `probs = byte_counts / byte_counts.sum()`
  is `streamEntropy`: the sum of `Real.negMulLog` over the normalised
  histogram, using the natural logarithm (scipy's default base); scipy's
  renormalisation of `probs` is a no-op here since `probs` already sums to 1
  whenever any byte was counted.  Python floats are modelled as real numbers.
* Python's `str()` rendering of the float interpolated into the
  high-entropy reason string is an uninterpreted parameter `showR`.
* The file system is modelled by `ScanInput`: whether the path names a
  regular file, its byte content, and an optional I/O failure raised at the
  k-th `f.read` call (with its exception message).
-/

set_option maxRecDepth 6000

set_option maxHeartbeats 1000000

/-! ## Bit-level helpers for the digest implementations -/

def M32 : Nat := 4294967296

def rotl32 (x n : Nat) : Nat := ((x <<< n) ||| (x >>> (32 - n))) % M32

def rotr32 (x n : Nat) : Nat := ((x >>> n) ||| (x <<< (32 - n))) % M32

def not32 (x : Nat) : Nat := Nat.xor x 4294967295

def chunksAux (fuel n : Nat) (l : List Nat) : List (List Nat) :=
  match fuel, l with
  | 0, _ => []
  | _, [] => []
  | f + 1, l => l.take n :: chunksAux f n (l.drop n)

/-- Split a byte list into consecutive chunks of `n` bytes (last one may be
shorter), as `iter(lambda: f.read(n), b'')` yields them. -/
def chunksOf (n : Nat) (l : List Nat) : List (List Nat) := chunksAux l.length n l

def leWord (b : List Nat) : Nat :=
  b.getD 0 0 + 256 * b.getD 1 0 + 65536 * b.getD 2 0 + 16777216 * b.getD 3 0

def beWord (b : List Nat) : Nat :=
  b.getD 3 0 + 256 * b.getD 2 0 + 65536 * b.getD 1 0 + 16777216 * b.getD 0 0

def padZeros (len : Nat) : Nat := (119 - len % 64) % 64

def leBytes8 (n : Nat) : List Nat := (List.range 8).map (fun i => (n >>> (8 * i)) % 256)

def beBytes8 (n : Nat) : List Nat := (leBytes8 n).reverse

def hexChar (n : Nat) : Char := if n < 10 then Char.ofNat (48 + n) else Char.ofNat (87 + n)

def byteHexChars (b : Nat) : List Char := [hexChar (b / 16), hexChar (b % 16)]

/-! ## MD5 (RFC 1321) -/

structure Md5St where
  a : Nat
  b : Nat
  c : Nat
  d : Nat
  deriving DecidableEq

def md5K : List Nat := [3614090360, 3905402710, 606105819, 3250441966, 4118548399, 1200080426, 2821735955, 4249261313, 1770035416, 2336552879, 4294925233, 2304563134, 1804603682, 4254626195, 2792965006, 1236535329, 4129170786, 3225465664, 643717713, 3921069994, 3593408605, 38016083, 3634488961, 3889429448, 568446438, 3275163606, 4107603335, 1163531501, 2850285829, 4243563512, 1735328473, 2368359562, 4294588738, 2272392833, 1839030562, 4259657740, 2763975236, 1272893353, 4139469664, 3200236656, 681279174, 3936430074, 3572445317, 76029189, 3654602809, 3873151461, 530742520, 3299628645, 4096336452, 1126891415, 2878612391, 4237533241, 1700485571, 2399980690, 4293915773, 2240044497, 1873313359, 4264355552, 2734768916, 1309151649, 4149444226, 3174756917, 718787259, 3951481745]

def md5S : List Nat := [7, 12, 17, 22, 7, 12, 17, 22, 7, 12, 17, 22, 7, 12, 17, 22, 5, 9, 14, 20, 5, 9, 14, 20, 5, 9, 14, 20, 5, 9, 14, 20, 4, 11, 16, 23, 4, 11, 16, 23, 4, 11, 16, 23, 4, 11, 16, 23, 6, 10, 15, 21, 6, 10, 15, 21, 6, 10, 15, 21, 6, 10, 15, 21]

def md5F (i b c d : Nat) : Nat :=
  if i < 16 then Nat.lor (Nat.land b c) (Nat.land (not32 b) d)
  else if i < 32 then Nat.lor (Nat.land d b) (Nat.land (not32 d) c)
  else if i < 48 then Nat.xor b (Nat.xor c d)
  else Nat.xor c (Nat.lor b (not32 d))

def md5Gi (i : Nat) : Nat :=
  if i < 16 then i
  else if i < 32 then (5 * i + 1) % 16
  else if i < 48 then (3 * i + 5) % 16
  else (7 * i) % 16

def md5Step (w : List Nat) (st : Md5St) (i : Nat) : Md5St :=
  let f := (md5F i st.b st.c st.d + st.a + md5K.getD i 0 + w.getD (md5Gi i) 0) % M32
  ⟨st.d, (st.b + rotl32 f (md5S.getD i 0)) % M32, st.b, st.c⟩

def md5Compress (st : Md5St) (block : List Nat) : Md5St :=
  let r := (List.range 64).foldl (md5Step ((chunksOf 4 block).map leWord)) st
  ⟨(st.a + r.a) % M32, (st.b + r.b) % M32, (st.c + r.c) % M32, (st.d + r.d) % M32⟩

def md5Init : Md5St := ⟨1732584193, 4023233417, 2562383102, 271733878⟩

def md5Pad (msg : List Nat) : List Nat :=
  msg ++ 128 :: (List.replicate (padZeros msg.length) 0 ++
    leBytes8 ((8 * msg.length) % 18446744073709551616))

def wordLEHex (w : Nat) : List Char :=
  (([w % 256, (w >>> 8) % 256, (w >>> 16) % 256, (w >>> 24) % 256].map byteHexChars)).flatten

def md5Blocks (msg : List Nat) : Md5St := (chunksOf 64 (md5Pad msg)).foldl md5Compress md5Init

/-- `hashlib.md5(msg).hexdigest()`. -/
def md5Hex (msg : List Nat) : String :=
  let r := md5Blocks msg
  String.mk (([r.a, r.b, r.c, r.d].map wordLEHex).flatten)

/-! ## SHA-256 (FIPS 180-4) -/

structure ShaSt where
  a : Nat
  b : Nat
  c : Nat
  d : Nat
  e : Nat
  f : Nat
  g : Nat
  h : Nat
  deriving DecidableEq

def shaK : List Nat := [1116352408, 1899447441, 3049323471, 3921009573, 961987163, 1508970993, 2453635748, 2870763221, 3624381080, 310598401, 607225278, 1426881987, 1925078388, 2162078206, 2614888103, 3248222580, 3835390401, 4022224774, 264347078, 604807628, 770255983, 1249150122, 1555081692, 1996064986, 2554220882, 2821834349, 2952996808, 3210313671, 3336571891, 3584528711, 113926993, 338241895, 666307205, 773529912, 1294757372, 1396182291, 1695183700, 1986661051, 2177026350, 2456956037, 2730485921, 2820302411, 3259730800, 3345764771, 3516065817, 3600352804, 4094571909, 275423344, 430227734, 506948616, 659060556, 883997877, 958139571, 1322822218, 1537002063, 1747873779, 1955562222, 2024104815, 2227730452, 2361852424, 2428436474, 2756734187, 3204031479, 3329325298]

def shaSmall0 (x : Nat) : Nat := Nat.xor (rotr32 x 7) (Nat.xor (rotr32 x 18) (x >>> 3))

def shaSmall1 (x : Nat) : Nat := Nat.xor (rotr32 x 17) (Nat.xor (rotr32 x 19) (x >>> 10))

def shaBig0 (x : Nat) : Nat := Nat.xor (rotr32 x 2) (Nat.xor (rotr32 x 13) (rotr32 x 22))

def shaBig1 (x : Nat) : Nat := Nat.xor (rotr32 x 6) (Nat.xor (rotr32 x 11) (rotr32 x 25))

def shaCh (x y z : Nat) : Nat := Nat.xor (Nat.land x y) (Nat.land (not32 x) z)

def shaMaj (x y z : Nat) : Nat :=
  Nat.xor (Nat.xor (Nat.land x y) (Nat.land x z)) (Nat.land y z)

def shaExtend (w16 : List Nat) : List Nat :=
  (List.range 48).foldl (fun w _ =>
    w ++ [(shaSmall1 (w.getD (w.length - 2) 0) + w.getD (w.length - 7) 0 +
           shaSmall0 (w.getD (w.length - 15) 0) + w.getD (w.length - 16) 0) % M32]) w16

def shaStep (w : List Nat) (st : ShaSt) (i : Nat) : ShaSt :=
  let t1 := (st.h + shaBig1 st.e + shaCh st.e st.f st.g + shaK.getD i 0 + w.getD i 0) % M32
  let t2 := (shaBig0 st.a + shaMaj st.a st.b st.c) % M32
  ⟨(t1 + t2) % M32, st.a, st.b, st.c, (st.d + t1) % M32, st.e, st.f, st.g⟩

def shaCompress (st : ShaSt) (block : List Nat) : ShaSt :=
  let r := (List.range 64).foldl (shaStep (shaExtend ((chunksOf 4 block).map beWord))) st
  ⟨(st.a + r.a) % M32, (st.b + r.b) % M32, (st.c + r.c) % M32, (st.d + r.d) % M32,
   (st.e + r.e) % M32, (st.f + r.f) % M32, (st.g + r.g) % M32, (st.h + r.h) % M32⟩

def shaInit : ShaSt :=
  ⟨1779033703, 3144134277, 1013904242, 2773480762, 1359893119, 2600822924, 528734635, 1541459225⟩

def shaPad (msg : List Nat) : List Nat :=
  msg ++ 128 :: (List.replicate (padZeros msg.length) 0 ++
    beBytes8 ((8 * msg.length) % 18446744073709551616))

def wordBEHex (w : Nat) : List Char :=
  (([(w >>> 24) % 256, (w >>> 16) % 256, (w >>> 8) % 256, w % 256].map byteHexChars)).flatten

def shaBlocks (msg : List Nat) : ShaSt := (chunksOf 64 (shaPad msg)).foldl shaCompress shaInit

/-- `hashlib.sha256(msg).hexdigest()`. -/
def sha256Hex (msg : List Nat) : String :=
  let r := shaBlocks msg
  String.mk (([r.a, r.b, r.c, r.d, r.e, r.f, r.g, r.h].map wordBEHex).flatten)

/-! ## Static tables of the scanner (`antivirus.py`, module level) -/

def strBytes (s : String) : List Nat := s.data.map Char.toNat

def KNOWN_BAD_MD5 : List (String × String) := [
  ("f0f322dcfe9953991c03746984b923ed", "DDoS Malware"),
  ("1fa3fc9ac5eb03d95bfa401a26111447", "Remcos RAT"),
  ("f3109e3234a83452de39ad40a285a5fd", "Remcos RAT Variant"),
  ("6a8401448a5bd2b540850f811b20a66d", "Dridex"),
  ("7d1f2798bd70c6cf04f5ad4de1aa68d2", "Formbook"),
  ("f2752c991000ad9d807fcbe188f03695", "Formbook Variant"),
  ("44d88612fea8a8f36de82e1278abb02f", "EICAR Test (Production Placeholder)"),
  ("6690cbf0c23303701f41bc3972ae9829", "Unknown Malware Sample")]

def KNOWN_BAD_SHA256 : List (String × String) := [
  ("9001567e2025f83c936b8746fd3b01e44572f70d8ddec39b75b9459f7e5089c8", "Unknown Malware"),
  ("178ba564b39bd07577e974a9b677dfd86ffa1f1d0299dfd958eb883c5ef6c3e1", "Dridex"),
  ("8571a354b5cdd9ec3735b84fa207e72c7aea1ab82ea2e4ffea1373335b3e88f4", "IISShellModule"),
  ("ef537f25c895bfa782526529a9b63d97aa631564d5d789c2b765448c8635fb6c", "Agent Tesla"),
  ("795db7bdad1befdd3ad942be79715f6b0c5083d859901b81657b590c9628790f", "Ryuk Ransomware"),
  ("3c5afa0fe75dcb4b1d86bbf19c75d64ae1ec00a6ed2bd6b34e88af8c23df9bfa", "Unknown Malware Sample"),
  ("fb55414848281f804858ce188c3dc659d129e283bd62d58d34f6e6f568feab37", "Suspicious File")]

noncomputable def ENTROPY_THRESHOLD : ℝ := 7.9

/-- `b'%PDF-'`. -/
def pdfSig : List Nat := strBytes "%PDF-"

/-- `EXECUTABLE_HEADERS`, in the source's (insertion) order.  `b'\x4D\x5A'`,
`b'\x7FELF'`, `b'\xFE\xED\xFA\xCE'`, `b'\xFE\xED\xFA\xCF'`, `b'%PDF-'`. -/
def EXECUTABLE_HEADERS : List (List Nat × String) := [
  ([77, 90], "Windows PE (MZ)"),
  ([127, 69, 76, 70], "Linux ELF"),
  ([254, 237, 250, 206], "Mach-O (macOS)"),
  ([254, 237, 250, 207], "Mach-O (macOS 64-bit)"),
  (pdfSig, "PDF (check for embedded JS)")]

/-- The `suspicious_strings` list (all-lowercase byte needles). -/
def SUSPICIOUS_STRINGS : List (List Nat) :=
  [strBytes "bitcoin", strBytes "ransom", strBytes "encrypt", strBytes "decrypt",
   strBytes "cmd.exe /c", strBytes "powershell.exe"]

/-- `b'/JavaScript'`. -/
def jsMarker : List Nat := strBytes "/JavaScript"

/-- `b'\x90' * 20`. -/
def nopSled : List Nat := List.replicate 20 144

/-! ## Chunk-level detectors -/

/-- `needle` is an initial run of `hay` (Python `bytes.startswith`). -/
def listLeads {α : Type} [BEq α] : List α → List α → Bool
  | [], _ => true
  | _h :: _t, [] => false
  | p :: ps, q :: qs => p == q && listLeads ps qs

/-- `needle in hay` for byte strings (Python substring containment). -/
def containsSeq {α : Type} [BEq α] (needle : List α) : List α → Bool
  | [] => listLeads needle []
  | a :: rest => listLeads needle (a :: rest) || containsSeq needle rest

/-- `bytes.lower()`, byte by byte. -/
def lowerByte (b : Nat) : Nat := if 65 ≤ b ∧ b ≤ 90 then b + 32 else b

/-- The first signature of `EXECUTABLE_HEADERS` that the chunk starts with.
The signatures are mutually prefix-exclusive, so at most one can match and
taking the first matching one is exactly the source's `for sig, desc in
EXECUTABLE_HEADERS.items()` loop. -/
def matchingHeader (chunk : List Nat) : Option (List Nat × String) :=
  EXECUTABLE_HEADERS.find? (fun sd => listLeads sd.1 chunk)

/-! ## The streaming loop -/

/-- `hashlib`'s incremental `update`: the accumulator state is the byte
stream fed so far. -/
def digestUpdate (acc chunk : List Nat) : List Nat := acc ++ chunk

def digestInit : List Nat := []

/-- `byte_counts[byte] += 1` (numpy array indexing; bytes are `< 256`). -/
def incAt (cs : List Nat) (b : Nat) : List Nat := cs.set b (cs.getD b 0 + 1)

def addCounts (cs chunk : List Nat) : List Nat := chunk.foldl incAt cs

/-- The mutable state threaded through the chunk loop of `is_infected`:
the `header_checked` / `pdf_checked` / `suspicious_content` /
`shellcode_detected` flags, the 256-bucket byte histogram, and the byte
stream fed to both digest accumulators. -/
structure LoopState where
  headerChecked : Bool
  pdfChecked : Bool
  suspiciousContent : Bool
  shellcodeDetected : Bool
  byteCounts : List Nat
  fed : List Nat
  deriving DecidableEq

def initLoopState : LoopState := ⟨false, false, false, false, List.replicate 256 0, digestInit⟩

inductive ChunkOut where
  | infectedReason (r : String)
  | continueWith (st : LoopState)
  deriving DecidableEq

/-- The `if not header_checked` block: on the first chunk, test the chunk
against the signature table; the PDF signature records document mode and
falls through, any other match returns infected. -/
def headerPhase (st1 : LoopState) (chunk : List Nat) : ChunkOut :=
  if st1.headerChecked then ChunkOut.continueWith st1
  else
    match matchingHeader chunk with
    | some sd =>
      if sd.1 = pdfSig then
        ChunkOut.continueWith { st1 with pdfChecked := true, headerChecked := true }
      else ChunkOut.infectedReason ("Suspicious executable header: " ++ sd.2)
    | none => ChunkOut.continueWith { st1 with headerChecked := true }

/-- Feeding a chunk to both digest accumulators and to the byte
histogram — the unconditional first step of every loop iteration. -/
def chunkStart (st : LoopState) (chunk : List Nat) : LoopState :=
  { st with fed := digestUpdate st.fed chunk,
            byteCounts := addCounts st.byteCounts chunk }

/-- One iteration of the `for chunk in iter(...)` body, in source order:
digest update and byte counting (`chunkStart`), first-chunk signature check
(`headerPhase`), embedded-JavaScript check when in document mode,
suspicious-string flag, NOP-sled flag. -/
def processChunk (st : LoopState) (chunk : List Nat) : ChunkOut :=
  match headerPhase (chunkStart st chunk) chunk with
  | ChunkOut.infectedReason r => ChunkOut.infectedReason r
  | ChunkOut.continueWith st2 =>
    if st2.pdfChecked && containsSeq jsMarker chunk then
      ChunkOut.infectedReason "Embedded JavaScript in PDF (potential exploit)"
    else
      let st3 : LoopState :=
        if SUSPICIOUS_STRINGS.any (fun s => containsSeq s (chunk.map lowerByte)) then
          { st2 with suspiciousContent := true }
        else st2
      let st4 : LoopState :=
        if containsSeq nopSled chunk then { st3 with shellcodeDetected := true } else st3
      ChunkOut.continueWith st4

inductive LoopOut where
  | early (r : String)
  | finished (st : LoopState)
  deriving DecidableEq

/-- The chunk loop: either some chunk short-circuits with an infected
reason, or all chunks are consumed and the final state is returned. -/
def scanChunksLoop : List (List Nat) → LoopState → LoopOut
  | [], st => LoopOut.finished st
  | chunk :: rest, st =>
    match processChunk st chunk with
    | ChunkOut.infectedReason r => LoopOut.early r
    | ChunkOut.continueWith st2 => scanChunksLoop rest st2

/-- `f.read(8192)` chunking of the whole file. -/
def toChunks (content : List Nat) : List (List Nat) := chunksOf 8192 content

/-! ## Entropy -/

/-- `scipy.stats.entropy(byte_counts / byte_counts.sum())`: Shannon entropy
in nats (scipy's default natural logarithm) of the byte histogram. -/
noncomputable def streamEntropy (counts : List Nat) : ℝ :=
  (counts.map (fun c : Nat => Real.negMulLog ((c : ℝ) / ((counts.sum : Nat) : ℝ)))).sum

/-! ## Result and input -/

structure ScanHashes where
  md5 : Option String
  sha256 : Option String
  deriving DecidableEq

/-- The `result` dict returned by `is_infected`. -/
structure ScanResult where
  infected : Bool
  reason : Option String
  filename : String
  size : Nat
  hashes : ScanHashes
  entropy : ℝ

/-- `os.path.basename` for POSIX paths. -/
def basename (p : String) : String := (p.splitOn "/").getLastD ""

/-- The scan's environment: whether `os.path.isfile` holds, the file's
bytes, and an optional I/O failure: `readErrorAt = some (k, msg)` means the
k-th `f.read` call (0-based; call number `chunks.length` is the final
empty read) raises an exception with message `msg`. -/
structure ScanInput where
  path : String
  isfile : Bool
  content : List Nat
  readErrorAt : Option (Nat × String)

/-- Post-stream phase of `is_infected`: finalize both digests, check the
two blacklists, compute entropy and compare with the threshold, then the
two heuristic flags, else clean. -/
noncomputable def postStream (showR : ℝ → String) (st : LoopState) (r0 : ScanResult) : ScanResult :=
  let md5h := md5Hex st.fed
  let shah := sha256Hex st.fed
  let r1 : ScanResult := { r0 with hashes := ⟨some md5h, some shah⟩ }
  match KNOWN_BAD_MD5.lookup md5h with
  | some label => { r1 with infected := true, reason := some ("Known malware (MD5): " ++ label) }
  | none =>
    match KNOWN_BAD_SHA256.lookup shah with
    | some label =>
      { r1 with infected := true, reason := some ("Known malware (SHA256): " ++ label) }
    | none =>
      let ent := streamEntropy st.byteCounts
      let r2 : ScanResult := { r1 with entropy := ent }
      if ENTROPY_THRESHOLD < ent then
        { r2 with infected := true,
                  reason := some ("High file entropy: " ++ showR ent ++
                    " (suspected packed/encrypted malware)") }
      else if st.suspiciousContent then
        { r2 with infected := true,
                  reason := some "Suspicious content strings (potential ransomware or command injection)" }
      else if st.shellcodeDetected then
        { r2 with infected := true,
                  reason := some "Potential shellcode pattern (NOP sled detected)" }
      else { r2 with reason := some "Scan completed: No threats detected" }

/-- `is_infected(file_path)`.  `showR` renders the float interpolated into
the high-entropy reason string. -/
noncomputable def is_infected (showR : ℝ → String) (inp : ScanInput) : ScanResult :=
  let base : ScanResult := ⟨false, none, basename inp.path, 0, ⟨none, none⟩, 0⟩
  if inp.isfile = false then { base with reason := some "File does not exist" }
  else if inp.content.length = 0 then { base with reason := some "File is empty" }
  else
    let r0 : ScanResult := { base with size := inp.content.length }
    let chunks := toChunks inp.content
    let readCount := match inp.readErrorAt with
      | some km => min km.1 chunks.length
      | none => chunks.length
    match scanChunksLoop (chunks.take readCount) initLoopState with
    | LoopOut.early r => { r0 with infected := true, reason := some r }
    | LoopOut.finished st =>
      match inp.readErrorAt with
      | some km =>
        if km.1 ≤ chunks.length then { r0 with reason := some ("Scan error: " ++ km.2) }
        else postStream showR st r0
      | none => postStream showR st r0

/-! ## Detection categories (for stating the result invariant) -/

/-- `p` is a leading piece of the string `s`. -/
def strLeads (p s : String) : Bool := listLeads p.data s.data

def optionStrLeads (p : String) : Option String → Bool
  | none => false
  | some s => strLeads p s

/-- The six detection categories of the scanner. -/
inductive DetectionCategory where
  | signatureHeader
  | embeddedScript
  | digestBlacklist
  | highEntropy
  | suspiciousStrings
  | shellcodePattern
  deriving DecidableEq, Fintype

/-- The fixed, pairwise-incompatible leading text of each category's
reason string. -/
def categoryMarker : DetectionCategory → String
  | DetectionCategory.signatureHeader => "Suspicious executable header"
  | DetectionCategory.embeddedScript => "Embedded JavaScript in PDF"
  | DetectionCategory.digestBlacklist => "Known malware"
  | DetectionCategory.highEntropy => "High file entropy"
  | DetectionCategory.suspiciousStrings => "Suspicious content strings"
  | DetectionCategory.shellcodePattern => "Potential shellcode pattern"

/-- The reason string `s` names the detection category `c`. -/
def reasonNames (c : DetectionCategory) (s : String) : Prop :=
  strLeads (categoryMarker c) s = true

/-! ## Chunking lemmas -/

theorem chunksAux_nil (fuel n : Nat) : chunksAux fuel n [] = [] := by
  cases fuel <;> rfl

theorem chunksAux_fuel_eq (n : Nat) (hn : 0 < n) :
    ∀ fuel fuel' (l : List Nat), l.length ≤ fuel → l.length ≤ fuel' →
      chunksAux fuel n l = chunksAux fuel' n l := by
  intro fuel
  induction fuel with
  | zero =>
    intro fuel' l hl _
    have : l = [] := List.eq_nil_of_length_eq_zero (Nat.le_zero.mp hl)
    subst this
    rw [chunksAux_nil, chunksAux_nil]
  | succ f ih =>
    intro fuel' l hl hl'
    cases l with
    | nil => rw [chunksAux_nil, chunksAux_nil]
    | cons a as =>
      cases fuel' with
      | zero => exact absurd hl' (by simp)
      | succ f' =>
        show (a :: as).take n :: chunksAux f n ((a :: as).drop n) =
             (a :: as).take n :: chunksAux f' n ((a :: as).drop n)
        have hd : ((a :: as).drop n).length ≤ (a :: as).length - 1 := by
          rw [List.length_drop]
          exact Nat.sub_le_sub_left hn _
        have h1 : ((a :: as).drop n).length ≤ f :=
          le_trans hd (by simpa using Nat.le_of_succ_le_succ hl)
        have h2 : ((a :: as).drop n).length ≤ f' :=
          le_trans hd (by simpa using Nat.le_of_succ_le_succ hl')
        rw [ih f' _ h1 h2]

theorem chunksOf_nil (n : Nat) : chunksOf n [] = [] := rfl

theorem chunksOf_cons (n : Nat) (l : List Nat) (hn : 0 < n) (hl : l ≠ []) :
    chunksOf n l = l.take n :: chunksOf n (l.drop n) := by
  cases l with
  | nil => exact absurd rfl hl
  | cons a as =>
    show chunksAux (as.length + 1) n (a :: as) = _
    show (a :: as).take n :: chunksAux as.length n ((a :: as).drop n) = _
    have hlen : ((a :: as).drop n).length ≤ as.length := by
      rw [List.length_drop]
      exact Nat.sub_le_sub_left hn _
    rw [chunksAux_fuel_eq n hn as.length ((a :: as).drop n).length ((a :: as).drop n)
      hlen le_rfl]
    rfl

theorem chunksAux_flatten (n : Nat) (hn : 0 < n) :
    ∀ fuel (l : List Nat), l.length ≤ fuel → (chunksAux fuel n l).flatten = l := by
  intro fuel
  induction fuel with
  | zero =>
    intro l hl
    have : l = [] := List.eq_nil_of_length_eq_zero (Nat.le_zero.mp hl)
    subst this
    rfl
  | succ f ih =>
    intro l hl
    cases l with
    | nil => rfl
    | cons a as =>
      show ((a :: as).take n :: chunksAux f n ((a :: as).drop n)).flatten = a :: as
      have hd : ((a :: as).drop n).length ≤ (a :: as).length - 1 := by
        rw [List.length_drop]
        exact Nat.sub_le_sub_left hn _
      have hf : ((a :: as).drop n).length ≤ f :=
        le_trans hd (by simpa using Nat.le_of_succ_le_succ hl)
      rw [List.flatten_cons, ih _ hf]
      exact List.take_append_drop n (a :: as)

theorem chunksOf_flatten (n : Nat) (l : List Nat) (hn : 0 < n) :
    (chunksOf n l).flatten = l :=
  chunksAux_flatten n hn l.length l le_rfl

theorem toChunks_flatten (content : List Nat) : (toChunks content).flatten = content :=
  chunksOf_flatten 8192 content (by norm_num)

theorem toChunks_ne_nil (content : List Nat) (h : content ≠ []) : toChunks content ≠ [] := by
  rw [toChunks, chunksOf_cons 8192 content (by norm_num) h]
  simp

/-! ## Digest accumulator lemmas -/

theorem foldl_digestUpdate (acc : List Nat) (l : List (List Nat)) :
    l.foldl digestUpdate acc = acc ++ l.flatten := by
  induction l generalizing acc with
  | nil => simp
  | cons c rest ih => simp [digestUpdate, ih, List.append_assoc]

/-! ## Histogram lemmas -/

theorem incAt_length (cs : List Nat) (b : Nat) : (incAt cs b).length = cs.length := by
  simp [incAt]

theorem addCounts_length (cs chunk : List Nat) : (addCounts cs chunk).length = cs.length := by
  induction chunk generalizing cs with
  | nil => rfl
  | cons b ch ih =>
    have hstep : addCounts cs (b :: ch) = addCounts (incAt cs b) ch := rfl
    rw [hstep, ih, incAt_length]

theorem addCounts_nil (cs : List Nat) : addCounts cs [] = cs := rfl

theorem addCounts_append (cs a b : List Nat) :
    addCounts cs (a ++ b) = addCounts (addCounts cs a) b := by
  simp [addCounts, List.foldl_append]

theorem incAt_sum (cs : List Nat) (b : Nat) (hb : b < cs.length) :
    (incAt cs b).sum = cs.sum + 1 := by
  induction cs generalizing b with
  | nil => simp at hb
  | cons c cs ih =>
    cases b with
    | zero => simp [incAt, Nat.add_assoc, Nat.add_comm, Nat.add_left_comm]
    | succ b =>
      have : incAt (c :: cs) (b + 1) = c :: incAt cs b := by
        simp [incAt, List.getD_cons_succ]
      rw [this, List.sum_cons, List.sum_cons, ih b (by simpa using hb),
        Nat.add_assoc]

theorem addCounts_sum (cs chunk : List Nat) (h : ∀ b ∈ chunk, b < cs.length) :
    (addCounts cs chunk).sum = cs.sum + chunk.length := by
  induction chunk generalizing cs with
  | nil => simp [addCounts_nil]
  | cons b ch ih =>
    have hstep : addCounts cs (b :: ch) = addCounts (incAt cs b) ch := rfl
    rw [hstep, ih (incAt cs b) (fun x hx => by
      rw [incAt_length]; exact h x (List.mem_cons_of_mem _ hx)),
      incAt_sum cs b (h b (List.mem_cons_self _ _))]
    simp [Nat.add_assoc, Nat.add_comm 1 ch.length]

/-! ## Loop lemmas -/

theorem headerPhase_continueWith_inv {st1 : LoopState} {chunk : List Nat} {st2 : LoopState}
    (h : headerPhase st1 chunk = ChunkOut.continueWith st2) :
    st2.fed = st1.fed ∧ st2.byteCounts = st1.byteCounts := by
  rw [headerPhase] at h
  split at h
  · injection h with h2
    subst h2
    exact ⟨rfl, rfl⟩
  · split at h
    next sd heq =>
      split at h
      · injection h with h2
        subst h2
        exact ⟨rfl, rfl⟩
      · simp at h
    next heq =>
      injection h with h2
      subst h2
      exact ⟨rfl, rfl⟩

theorem headerPhase_early_inv {st1 : LoopState} {chunk : List Nat} {r : String}
    (h : headerPhase st1 chunk = ChunkOut.infectedReason r) :
    ∃ sd, sd ∈ EXECUTABLE_HEADERS ∧ sd.1 ≠ pdfSig ∧
      r = "Suspicious executable header: " ++ sd.2 := by
  rw [headerPhase] at h
  split at h
  · simp at h
  · split at h
    next sd heq =>
      split at h
      · simp at h
      · injection h with h2
        next hp =>
          exact ⟨sd, List.mem_of_find?_eq_some heq, hp, h2.symm⟩
    next heq => simp at h

theorem processChunk_continueWith_inv {st : LoopState} {chunk : List Nat} {st' : LoopState}
    (h : processChunk st chunk = ChunkOut.continueWith st') :
    st'.fed = st.fed ++ chunk ∧ st'.byteCounts = addCounts st.byteCounts chunk := by
  simp only [processChunk] at h
  cases hph : headerPhase (chunkStart st chunk) chunk with
  | infectedReason r => rw [hph] at h; simp at h
  | continueWith st2 =>
    rw [hph] at h
    obtain ⟨hfed, hcnt⟩ := headerPhase_continueWith_inv hph
    split at h
    next r2 heq => simp at heq
    next st3 heq =>
      injection heq with heq2
      subst heq2
      split at h
      · simp at h
      · injection h with h2
        subst h2
        constructor
        · split_ifs <;> simp_all [chunkStart, digestUpdate]
        · split_ifs <;> simp_all [chunkStart, digestUpdate]

theorem processChunk_early_inv {st : LoopState} {chunk : List Nat} {r : String}
    (h : processChunk st chunk = ChunkOut.infectedReason r) :
    (∃ sd, sd ∈ EXECUTABLE_HEADERS ∧ sd.1 ≠ pdfSig ∧
      r = "Suspicious executable header: " ++ sd.2) ∨
    r = "Embedded JavaScript in PDF (potential exploit)" := by
  simp only [processChunk] at h
  cases hph : headerPhase (chunkStart st chunk) chunk with
  | infectedReason r2 =>
    rw [hph] at h
    split at h
    next r3 heq =>
      injection heq with heq2
      subst heq2
      injection h with h2
      subst h2
      obtain ⟨sd, hmem, hp, hr⟩ := headerPhase_early_inv hph
      exact Or.inl ⟨sd, hmem, hp, hr⟩
    next st3 heq => simp at heq
  | continueWith st2 =>
    rw [hph] at h
    split at h
    next r3 heq => simp at heq
    next st3 heq =>
      split at h
      · injection h with h2
        exact Or.inr h2.symm
      · simp at h

theorem scanChunksLoop_finished_inv :
    ∀ (chunks : List (List Nat)) (st st' : LoopState),
      scanChunksLoop chunks st = LoopOut.finished st' →
      st'.fed = st.fed ++ chunks.flatten ∧
      st'.byteCounts = addCounts st.byteCounts chunks.flatten := by
  intro chunks
  induction chunks with
  | nil =>
    intro st st' h
    injection h with h2
    subst h2
    simp [addCounts_nil]
  | cons c rest ih =>
    intro st st' h
    rw [scanChunksLoop] at h
    cases hpc : processChunk st c with
    | infectedReason r => rw [hpc] at h; simp at h
    | continueWith st2 =>
      rw [hpc] at h
      obtain ⟨hfed, hcnt⟩ := processChunk_continueWith_inv hpc
      obtain ⟨h1, h2⟩ := ih st2 st' h
      constructor
      · rw [h1, hfed, List.flatten_cons, List.append_assoc]
      · rw [h2, hcnt, List.flatten_cons, addCounts_append]

theorem scanChunksLoop_early_inv :
    ∀ (chunks : List (List Nat)) (st : LoopState) (r : String),
      scanChunksLoop chunks st = LoopOut.early r →
      (∃ sd, sd ∈ EXECUTABLE_HEADERS ∧ sd.1 ≠ pdfSig ∧
        r = "Suspicious executable header: " ++ sd.2) ∨
      r = "Embedded JavaScript in PDF (potential exploit)" := by
  intro chunks
  induction chunks with
  | nil => intro st r h; simp [scanChunksLoop] at h
  | cons c rest ih =>
    intro st r h
    rw [scanChunksLoop] at h
    cases hpc : processChunk st c with
    | infectedReason r2 =>
      rw [hpc] at h
      injection h with h2
      subst h2
      exact processChunk_early_inv hpc
    | continueWith st2 =>
      rw [hpc] at h
      exact ih st2 r h

theorem scanChunksLoop_counts_length {chunks : List (List Nat)} {st st' : LoopState}
    (h : scanChunksLoop chunks st = LoopOut.finished st') :
    st'.byteCounts.length = st.byteCounts.length := by
  rw [(scanChunksLoop_finished_inv chunks st st' h).2, addCounts_length]

/-! ## Entropy bounds -/

theorem sum_map_affine (l : List Nat) (A B : ℝ) :
    (l.map (fun c : Nat => A * (c : ℝ) + B)).sum = A * ((l.sum : Nat) : ℝ) + l.length * B := by
  induction l with
  | nil => simp
  | cons c cs ih =>
    have h1 : (((c :: cs).sum : Nat) : ℝ) = (c : ℝ) + ((cs.sum : Nat) : ℝ) := by
      rw [List.sum_cons]
      push_cast
      ring
    have h2 : (((c :: cs).length : Nat) : ℝ) = (cs.length : ℝ) + 1 := by
      rw [List.length_cons]
      push_cast
      ring
    rw [List.map_cons, List.sum_cons, ih, h1, h2]
    ring

theorem negMulLog_le_affine {n p : ℝ} (hn : 1 ≤ n) (hp : 0 ≤ p) :
    Real.negMulLog p ≤ (Real.log n - 1) * p + 1 / n := by
  have hn0 : 0 < n := lt_of_lt_of_le one_pos hn
  rcases eq_or_lt_of_le hp with hp0 | hp0
  · rw [← hp0, Real.negMulLog_zero]
    have h1 : 0 < 1 / n := by positivity
    linarith
  · have hlog := Real.log_le_sub_one_of_pos (show (0:ℝ) < 1 / (p * n) by positivity)
    rw [one_div, Real.log_inv, Real.log_mul (ne_of_gt hp0) (ne_of_gt hn0)] at hlog
    have hmul := mul_le_mul_of_nonneg_left hlog (le_of_lt hp0)
    have hpn' : p * (p * n)⁻¹ = 1 / n := by
      field_simp
    simp only [Real.negMulLog]
    nlinarith [hmul, hpn']

theorem streamEntropy_le_log_length (counts : List Nat) (h : counts ≠ []) :
    streamEntropy counts ≤ Real.log counts.length := by
  have hlen : 0 < counts.length := List.length_pos.mpr h
  have hn1 : (1:ℝ) ≤ (counts.length : ℝ) := by exact_mod_cast hlen
  rcases Nat.eq_zero_or_pos counts.sum with hs | hs
  · rw [streamEntropy]
    have hz : ∀ x ∈ counts.map
        (fun c : Nat => Real.negMulLog ((c : ℝ) / ((counts.sum : Nat) : ℝ))), x = 0 := by
      intro x hx
      obtain ⟨c, _, hc⟩ := List.mem_map.mp hx
      rw [← hc, hs]
      simp
    rw [List.sum_eq_zero hz]
    exact Real.log_nonneg hn1
  · have hT : (0:ℝ) < ((counts.sum : Nat) : ℝ) := by exact_mod_cast hs
    rw [streamEntropy]
    have hstep : ∀ c : Nat, c ∈ counts →
        Real.negMulLog ((c : ℝ) / ((counts.sum : Nat) : ℝ)) ≤
        ((Real.log counts.length - 1) / ((counts.sum : Nat) : ℝ)) * (c : ℝ) +
          1 / (counts.length : ℝ) := by
      intro c _
      have hb := negMulLog_le_affine hn1
        (show (0:ℝ) ≤ (c : ℝ) / ((counts.sum : Nat) : ℝ) by positivity)
      calc Real.negMulLog ((c : ℝ) / ((counts.sum : Nat) : ℝ)) ≤
          (Real.log counts.length - 1) * ((c : ℝ) / ((counts.sum : Nat) : ℝ)) +
            1 / (counts.length : ℝ) := hb
        _ = ((Real.log counts.length - 1) / ((counts.sum : Nat) : ℝ)) * (c : ℝ) +
            1 / (counts.length : ℝ) := by ring
    calc (counts.map (fun c : Nat =>
            Real.negMulLog ((c : ℝ) / ((counts.sum : Nat) : ℝ)))).sum
        ≤ (counts.map (fun c : Nat =>
            ((Real.log counts.length - 1) / ((counts.sum : Nat) : ℝ)) * (c : ℝ) +
              1 / (counts.length : ℝ))).sum := List.sum_le_sum hstep
      _ = ((Real.log counts.length - 1) / ((counts.sum : Nat) : ℝ)) * ((counts.sum : Nat) : ℝ) +
            counts.length * (1 / (counts.length : ℝ)) := sum_map_affine counts _ _
      _ = Real.log counts.length := by
          rw [div_mul_cancel₀ _ (ne_of_gt hT),
            mul_one_div_cancel (show (counts.length : ℝ) ≠ 0 by positivity)]
          ring

theorem log_256_lt_threshold : Real.log 256 < ENTROPY_THRESHOLD := by
  have h2 : Real.log 2 < 0.6931471808 := Real.log_two_lt_d9
  have h256 : (256:ℝ) = 2 ^ 8 := by norm_num
  rw [ENTROPY_THRESHOLD, h256, Real.log_pow]
  push_cast
  nlinarith

theorem streamEntropy_replicate_one :
    streamEntropy (List.replicate 256 1) = Real.log 256 := by
  rw [streamEntropy]
  have hsum : (List.replicate 256 (1:Nat)).sum = 256 := by simp
  rw [hsum, List.map_replicate, List.sum_replicate, nsmul_eq_mul]
  have : Real.negMulLog (((1:Nat) : ℝ) / ((256 : Nat) : ℝ)) =
      (1 / 256) * Real.log 256 := by
    rw [Real.negMulLog]
    push_cast
    rw [show ((1:ℝ)/256) = (256:ℝ)⁻¹ by norm_num, Real.log_inv]
    ring
  rw [this]
  push_cast
  ring

/-! ## Category uniqueness -/

theorem uniq_cat_md5 (l : String) :
    ∃! c, reasonNames c ("Known malware (MD5): " ++ l) := by
  refine ⟨DetectionCategory.digestBlacklist, rfl, ?_⟩
  intro y hy
  cases y <;> first | rfl | exact Bool.noConfusion hy

theorem uniq_cat_sha256 (l : String) :
    ∃! c, reasonNames c ("Known malware (SHA256): " ++ l) := by
  refine ⟨DetectionCategory.digestBlacklist, rfl, ?_⟩
  intro y hy
  cases y <;> first | rfl | exact Bool.noConfusion hy

theorem uniq_cat_highEntropy (v : String) :
    ∃! c, reasonNames c ("High file entropy: " ++ v ++
      " (suspected packed/encrypted malware)") := by
  refine ⟨DetectionCategory.highEntropy, rfl, ?_⟩
  intro y hy
  cases y <;> first | rfl | exact Bool.noConfusion hy

/-! ## Post-stream lemmas -/

theorem entropy_not_above_threshold (st : LoopState) (hc : st.byteCounts.length = 256) :
    ¬ ENTROPY_THRESHOLD < streamEntropy st.byteCounts := by
  have hne : st.byteCounts ≠ [] := by
    intro h0
    rw [h0] at hc
    simp at hc
  have hb := streamEntropy_le_log_length st.byteCounts hne
  rw [hc] at hb
  have : ((256 : Nat) : ℝ) = (256 : ℝ) := by norm_num
  rw [this] at hb
  have := log_256_lt_threshold
  linarith

theorem postStream_md5_hit (showR : ℝ → String) (st : LoopState) (r0 : ScanResult)
    (label : String) (hm : KNOWN_BAD_MD5.lookup (md5Hex st.fed) = some label) :
    postStream showR st r0 =
      { r0 with hashes := ⟨some (md5Hex st.fed), some (sha256Hex st.fed)⟩,
                infected := true,
                reason := some ("Known malware (MD5): " ++ label) } := by
  simp only [postStream, hm]

theorem postStream_clean (showR : ℝ → String) (st : LoopState) (r0 : ScanResult)
    (h5 : KNOWN_BAD_MD5.lookup (md5Hex st.fed) = none)
    (hsha : KNOWN_BAD_SHA256.lookup (sha256Hex st.fed) = none)
    (hc : st.byteCounts.length = 256)
    (hsus : st.suspiciousContent = false)
    (hnop : st.shellcodeDetected = false) :
    postStream showR st r0 =
      { r0 with hashes := ⟨some (md5Hex st.fed), some (sha256Hex st.fed)⟩,
                entropy := streamEntropy st.byteCounts,
                reason := some "Scan completed: No threats detected" } := by
  have hent := entropy_not_above_threshold st hc
  simp only [postStream, h5, hsha, if_neg hent, hsus, hnop]
  simp

theorem postStream_sha_hit (showR : ℝ → String) (st : LoopState) (r0 : ScanResult)
    (label : String) (h5 : KNOWN_BAD_MD5.lookup (md5Hex st.fed) = none)
    (hsha : KNOWN_BAD_SHA256.lookup (sha256Hex st.fed) = some label) :
    postStream showR st r0 =
      { r0 with hashes := ⟨some (md5Hex st.fed), some (sha256Hex st.fed)⟩,
                infected := true,
                reason := some ("Known malware (SHA256): " ++ label) } := by
  simp only [postStream, h5, hsha]

theorem postStream_suspicious (showR : ℝ → String) (st : LoopState) (r0 : ScanResult)
    (h5 : KNOWN_BAD_MD5.lookup (md5Hex st.fed) = none)
    (hsha : KNOWN_BAD_SHA256.lookup (sha256Hex st.fed) = none)
    (hc : st.byteCounts.length = 256)
    (hsus : st.suspiciousContent = true) :
    postStream showR st r0 =
      { r0 with hashes := ⟨some (md5Hex st.fed), some (sha256Hex st.fed)⟩,
                entropy := streamEntropy st.byteCounts,
                infected := true,
                reason := some
                  "Suspicious content strings (potential ransomware or command injection)" } := by
  have hent := entropy_not_above_threshold st hc
  simp only [postStream, h5, hsha, if_neg hent, hsus, if_true]

theorem postStream_shellcode (showR : ℝ → String) (st : LoopState) (r0 : ScanResult)
    (h5 : KNOWN_BAD_MD5.lookup (md5Hex st.fed) = none)
    (hsha : KNOWN_BAD_SHA256.lookup (sha256Hex st.fed) = none)
    (hc : st.byteCounts.length = 256)
    (hsus : st.suspiciousContent = false)
    (hnop : st.shellcodeDetected = true) :
    postStream showR st r0 =
      { r0 with hashes := ⟨some (md5Hex st.fed), some (sha256Hex st.fed)⟩,
                entropy := streamEntropy st.byteCounts,
                infected := true,
                reason := some "Potential shellcode pattern (NOP sled detected)" } := by
  have hent := entropy_not_above_threshold st hc
  simp only [postStream, h5, hsha, if_neg hent, hsus, hnop]
  simp

theorem postStream_shape (showR : ℝ → String) (st : LoopState) (r0 : ScanResult)
    (hc : st.byteCounts.length = 256) (hinf : r0.infected = false) :
    ((postStream showR st r0).infected = false ∧
      (postStream showR st r0).reason = some "Scan completed: No threats detected") ∨
    ((postStream showR st r0).infected = true ∧
      ((∃ l, (postStream showR st r0).reason = some ("Known malware (MD5): " ++ l)) ∨
       (∃ l, (postStream showR st r0).reason = some ("Known malware (SHA256): " ++ l)) ∨
       (postStream showR st r0).reason =
         some "Suspicious content strings (potential ransomware or command injection)" ∨
       (postStream showR st r0).reason =
         some "Potential shellcode pattern (NOP sled detected)")) := by
  cases hm : KNOWN_BAD_MD5.lookup (md5Hex st.fed) with
  | some label =>
    rw [postStream_md5_hit showR st r0 label hm]
    exact Or.inr ⟨rfl, Or.inl ⟨label, rfl⟩⟩
  | none =>
    cases hsha : KNOWN_BAD_SHA256.lookup (sha256Hex st.fed) with
    | some label =>
      rw [postStream_sha_hit showR st r0 label hm hsha]
      exact Or.inr ⟨rfl, Or.inr (Or.inl ⟨label, rfl⟩)⟩
    | none =>
      by_cases hsus : st.suspiciousContent = true
      · rw [postStream_suspicious showR st r0 hm hsha hc hsus]
        exact Or.inr ⟨rfl, Or.inr (Or.inr (Or.inl rfl))⟩
      · by_cases hnop : st.shellcodeDetected = true
        · rw [postStream_shellcode showR st r0 hm hsha hc
            (Bool.not_eq_true _ |>.mp hsus) hnop]
          exact Or.inr ⟨rfl, Or.inr (Or.inr (Or.inr rfl))⟩
        · rw [postStream_clean showR st r0 hm hsha hc
            (Bool.not_eq_true _ |>.mp hsus) (Bool.not_eq_true _ |>.mp hnop)]
          exact Or.inl ⟨hinf, rfl⟩

/-! ## Orchestrator path lemmas -/

theorem is_infected_not_file (showR : ℝ → String) (inp : ScanInput)
    (hf : inp.isfile = false) :
    is_infected showR inp =
      ⟨false, some "File does not exist", basename inp.path, 0, ⟨none, none⟩, 0⟩ := by
  simp only [is_infected, hf, if_true]

theorem is_infected_empty (showR : ℝ → String) (inp : ScanInput)
    (hf : inp.isfile = true) (he : inp.content = []) :
    is_infected showR inp =
      ⟨false, some "File is empty", basename inp.path, 0, ⟨none, none⟩, 0⟩ := by
  simp only [is_infected, hf, he]
  simp

theorem is_infected_early (showR : ℝ → String) (inp : ScanInput) (r : String)
    (hf : inp.isfile = true) (hne : inp.content ≠ [])
    (herr : inp.readErrorAt = none)
    (hloop : scanChunksLoop (toChunks inp.content) initLoopState = LoopOut.early r) :
    is_infected showR inp =
      ⟨true, some r, basename inp.path, inp.content.length, ⟨none, none⟩, 0⟩ := by
  have hlen : ¬ inp.content.length = 0 := by simpa using hne
  simp only [is_infected, hf, hlen, herr, if_false, List.take_length, hloop]
  simp

theorem is_infected_finished (showR : ℝ → String) (inp : ScanInput) (st : LoopState)
    (hf : inp.isfile = true) (hne : inp.content ≠ [])
    (herr : inp.readErrorAt = none)
    (hloop : scanChunksLoop (toChunks inp.content) initLoopState = LoopOut.finished st) :
    is_infected showR inp =
      postStream showR st
        ⟨false, none, basename inp.path, inp.content.length, ⟨none, none⟩, 0⟩ := by
  have hlen : ¬ inp.content.length = 0 := by simpa using hne
  simp only [is_infected, hf, hlen, herr, if_false, List.take_length, hloop]
  simp

theorem is_infected_error (showR : ℝ → String) (inp : ScanInput) (k : Nat) (msg : String)
    (st : LoopState)
    (hf : inp.isfile = true) (hne : inp.content ≠ [])
    (herr : inp.readErrorAt = some (k, msg))
    (hk : k ≤ (toChunks inp.content).length)
    (hloop : scanChunksLoop ((toChunks inp.content).take k) initLoopState =
      LoopOut.finished st) :
    is_infected showR inp =
      ⟨false, some ("Scan error: " ++ msg), basename inp.path, inp.content.length,
        ⟨none, none⟩, 0⟩ := by
  have hlen : ¬ inp.content.length = 0 := by simpa using hne
  have hmin : min k (toChunks inp.content).length = k := min_eq_left hk
  simp only [is_infected, hf, hlen, herr, if_false, hmin, hloop, hk, if_true]
  simp

theorem is_infected_early_errA (showR : ℝ → String) (inp : ScanInput) (r : String)
    (k : Nat) (msg : String)
    (hf : inp.isfile = true) (hne : inp.content ≠ [])
    (herr : inp.readErrorAt = some (k, msg))
    (hk : k ≤ (toChunks inp.content).length)
    (hloop : scanChunksLoop ((toChunks inp.content).take k) initLoopState =
      LoopOut.early r) :
    is_infected showR inp =
      ⟨true, some r, basename inp.path, inp.content.length, ⟨none, none⟩, 0⟩ := by
  have hlen : ¬ inp.content.length = 0 := by simpa using hne
  have hmin : min k (toChunks inp.content).length = k := min_eq_left hk
  simp only [is_infected, hf, hlen, herr, if_false, hmin, hloop]
  simp

theorem is_infected_early_errB (showR : ℝ → String) (inp : ScanInput) (r : String)
    (k : Nat) (msg : String)
    (hf : inp.isfile = true) (hne : inp.content ≠ [])
    (herr : inp.readErrorAt = some (k, msg))
    (hk : (toChunks inp.content).length < k)
    (hloop : scanChunksLoop (toChunks inp.content) initLoopState = LoopOut.early r) :
    is_infected showR inp =
      ⟨true, some r, basename inp.path, inp.content.length, ⟨none, none⟩, 0⟩ := by
  have hlen : ¬ inp.content.length = 0 := by simpa using hne
  have hmin : min k (toChunks inp.content).length = (toChunks inp.content).length :=
    min_eq_right (le_of_lt hk)
  simp only [is_infected, hf, hlen, herr, if_false, hmin, List.take_length, hloop]
  simp

theorem is_infected_finished_errB (showR : ℝ → String) (inp : ScanInput) (st : LoopState)
    (k : Nat) (msg : String)
    (hf : inp.isfile = true) (hne : inp.content ≠ [])
    (herr : inp.readErrorAt = some (k, msg))
    (hk : (toChunks inp.content).length < k)
    (hloop : scanChunksLoop (toChunks inp.content) initLoopState = LoopOut.finished st) :
    is_infected showR inp =
      postStream showR st
        ⟨false, none, basename inp.path, inp.content.length, ⟨none, none⟩, 0⟩ := by
  have hlen : ¬ inp.content.length = 0 := by simpa using hne
  have hmin : min k (toChunks inp.content).length = (toChunks inp.content).length :=
    min_eq_right (le_of_lt hk)
  have hk2 : ¬ k ≤ (toChunks inp.content).length := not_le.mpr hk
  simp only [is_infected, hf, hlen, herr, if_false, hmin, List.take_length, hloop, hk2]
  simp

/-- Every result of `is_infected` has one of the shapes below: a clean /
validation / error result with `infected = false`, or an infected result
whose reason is one of the detection reasons actually produced by the code
(the high-entropy reason is absent from the list because that branch is
unreachable: the natural-log entropy is at most `log 256 < 7.9`). -/
theorem is_infected_shape (showR : ℝ → String) (inp : ScanInput) :
    ((is_infected showR inp).infected = false ∧
      ((is_infected showR inp).reason = some "File does not exist" ∨
       (is_infected showR inp).reason = some "File is empty" ∨
       (is_infected showR inp).reason = some "Scan completed: No threats detected" ∨
       (∃ m, (is_infected showR inp).reason = some ("Scan error: " ++ m)))) ∨
    ((is_infected showR inp).infected = true ∧
      ((∃ sd, sd ∈ EXECUTABLE_HEADERS ∧ sd.1 ≠ pdfSig ∧
          (is_infected showR inp).reason = some ("Suspicious executable header: " ++ sd.2)) ∨
       (is_infected showR inp).reason =
         some "Embedded JavaScript in PDF (potential exploit)" ∨
       (∃ l, (is_infected showR inp).reason = some ("Known malware (MD5): " ++ l)) ∨
       (∃ l, (is_infected showR inp).reason = some ("Known malware (SHA256): " ++ l)) ∨
       (is_infected showR inp).reason =
         some "Suspicious content strings (potential ransomware or command injection)" ∨
       (is_infected showR inp).reason =
         some "Potential shellcode pattern (NOP sled detected)")) := by
  by_cases hf : inp.isfile = true
  · by_cases he : inp.content = []
    · rw [is_infected_empty showR inp hf he]
      exact Or.inl ⟨rfl, Or.inr (Or.inl rfl)⟩
    · cases herr : inp.readErrorAt with
      | none =>
        cases hloop : scanChunksLoop (toChunks inp.content) initLoopState with
        | early r =>
          rw [is_infected_early showR inp r hf he herr hloop]
          refine Or.inr ⟨rfl, ?_⟩
          rcases scanChunksLoop_early_inv _ _ _ hloop with ⟨sd, hmem, hp, hr⟩ | hr
          · exact Or.inl ⟨sd, hmem, hp, by rw [hr]⟩
          · exact Or.inr (Or.inl (by rw [hr]))
        | finished st =>
          rw [is_infected_finished showR inp st hf he herr hloop]
          have hc : st.byteCounts.length = 256 := by
            have := scanChunksLoop_counts_length hloop
            simpa [initLoopState] using this
          rcases postStream_shape showR st
              ⟨false, none, basename inp.path, inp.content.length, ⟨none, none⟩, 0⟩
              hc rfl with ⟨h1, h2⟩ | ⟨h1, hrest⟩
          · exact Or.inl ⟨h1, Or.inr (Or.inr (Or.inl h2))⟩
          · refine Or.inr ⟨h1, ?_⟩
            rcases hrest with h | h | h | h
            · right; right; left; exact h
            · right; right; right; left; exact h
            · right; right; right; right; left; exact h
            · iterate 5 right
              exact h
      | some km =>
        obtain ⟨k, msg⟩ := km
        by_cases hk : k ≤ (toChunks inp.content).length
        · cases hloop : scanChunksLoop ((toChunks inp.content).take k) initLoopState with
          | early r =>
            rw [is_infected_early_errA showR inp r k msg hf he herr hk hloop]
            refine Or.inr ⟨rfl, ?_⟩
            rcases scanChunksLoop_early_inv _ _ _ hloop with ⟨sd, hmem, hp, hr⟩ | hr
            · exact Or.inl ⟨sd, hmem, hp, by rw [hr]⟩
            · exact Or.inr (Or.inl (by rw [hr]))
          | finished st =>
            rw [is_infected_error showR inp k msg st hf he herr hk hloop]
            exact Or.inl ⟨rfl, Or.inr (Or.inr (Or.inr ⟨msg, rfl⟩))⟩
        · push_neg at hk
          cases hloop : scanChunksLoop (toChunks inp.content) initLoopState with
          | early r =>
            rw [is_infected_early_errB showR inp r k msg hf he herr hk hloop]
            refine Or.inr ⟨rfl, ?_⟩
            rcases scanChunksLoop_early_inv _ _ _ hloop with ⟨sd, hmem, hp, hr⟩ | hr
            · exact Or.inl ⟨sd, hmem, hp, by rw [hr]⟩
            · exact Or.inr (Or.inl (by rw [hr]))
          | finished st =>
            rw [is_infected_finished_errB showR inp st k msg hf he herr hk hloop]
            have hc : st.byteCounts.length = 256 := by
              have := scanChunksLoop_counts_length hloop
              simpa [initLoopState] using this
            rcases postStream_shape showR st
              ⟨false, none, basename inp.path, inp.content.length, ⟨none, none⟩, 0⟩
              hc rfl with ⟨h1, h2⟩ | ⟨h1, hrest⟩
            · exact Or.inl ⟨h1, Or.inr (Or.inr (Or.inl h2))⟩
            · refine Or.inr ⟨h1, ?_⟩
              rcases hrest with h | h | h | h
              · right; right; left; exact h
              · right; right; right; left; exact h
              · right; right; right; right; left; exact h
              · iterate 5 right
                exact h
  · rw [is_infected_not_file showR inp (by simpa using hf)]
    exact Or.inl ⟨rfl, Or.inl rfl⟩

theorem uniq_cat_sig (d : String) :
    ∃! c, reasonNames c ("Suspicious executable header: " ++ d) := by
  refine ⟨DetectionCategory.signatureHeader, rfl, ?_⟩
  intro y hy
  cases y <;> first | rfl | exact Bool.noConfusion hy

theorem uniq_cat_js :
    ∃! c, reasonNames c "Embedded JavaScript in PDF (potential exploit)" := by
  refine ⟨DetectionCategory.embeddedScript, rfl, ?_⟩
  intro y hy
  cases y <;> first | rfl | exact Bool.noConfusion hy

theorem uniq_cat_suspicious :
    ∃! c, reasonNames c
      "Suspicious content strings (potential ransomware or command injection)" := by
  refine ⟨DetectionCategory.suspiciousStrings, rfl, ?_⟩
  intro y hy
  cases y <;> first | rfl | exact Bool.noConfusion hy

theorem uniq_cat_shellcode :
    ∃! c, reasonNames c "Potential shellcode pattern (NOP sled detected)" := by
  refine ⟨DetectionCategory.shellcodePattern, rfl, ?_⟩
  intro y hy
  cases y <;> first | rfl | exact Bool.noConfusion hy

theorem reason_always_some (showR : ℝ → String) (inp : ScanInput) :
    (is_infected showR inp).reason ≠ none := by
  rcases is_infected_shape showR inp with
    ⟨-, h1 | h1 | h1 | ⟨m, h1⟩⟩ | ⟨-, ⟨sd, -, -, h1⟩ | h1 | ⟨l, h1⟩ | ⟨l, h1⟩ | h1 | h1⟩ <;>
    simp [h1]

/-! ## Substring-search lemmas for replicate-structured content -/

theorem listLeads_cons_ne {a b : Nat} (as bs : List Nat) (h : (a == b) = false) :
    listLeads (a :: as) (b :: bs) = false := by
  simp [listLeads, h]

theorem containsSeq_cons_ne {a b : Nat} (as hay : List Nat) (h : (a == b) = false) :
    containsSeq (a :: as) (b :: hay) = containsSeq (a :: as) hay := by
  rw [containsSeq, listLeads_cons_ne as hay h]
  simp

theorem containsSeq_replicate_strip {a b : Nat} (as : List Nat) (h : (a == b) = false)
    (n : Nat) (t : List Nat) :
    containsSeq (a :: as) (List.replicate n b ++ t) = containsSeq (a :: as) t := by
  induction n with
  | zero => rfl
  | succ m ih =>
    rw [List.replicate_succ, List.cons_append, containsSeq_cons_ne as _ h, ih]

theorem containsSeq_nil_of_cons (a : Nat) (as : List Nat) :
    containsSeq (a :: as) [] = false := rfl

theorem containsSeq_zero_nop_false {a : Nat} (as : List Nat)
    (h0 : (a == 0) = false) (h144 : (a == 144) = false) (n m : Nat) :
    containsSeq (a :: as) (List.replicate n 0 ++ List.replicate m 144) = false := by
  rw [containsSeq_replicate_strip as h0 n, ← List.append_nil (List.replicate m 144),
    containsSeq_replicate_strip as h144 m]
  rfl

theorem listLeads_replicate_head {a b : Nat} (as : List Nat) (h : (a == b) = false)
    (n : Nat) (hn : n ≠ 0) (t : List Nat) :
    listLeads (a :: as) (List.replicate n b ++ t) = false := by
  cases n with
  | zero => exact absurd rfl hn
  | succ m =>
    rw [List.replicate_succ, List.cons_append]
    exact listLeads_cons_ne as _ h

/-! ## Claims -/

/-- Claim C2: `is_infected` always returns a complete result (its `reason`
is always set), and an I/O failure actually raised during streaming — the
k-th read fails and no earlier chunk short-circuited — yields
`infected = false` with reason `"Scan error: <message>"`; a scan error is
never classified as an infection. -/
theorem scan_error_handling_C2 (showR : ℝ → String) (inp : ScanInput) :
    (is_infected showR inp).reason ≠ none ∧
    (∀ (k : Nat) (msg : String) (st : LoopState),
      inp.isfile = true → inp.content ≠ [] →
      inp.readErrorAt = some (k, msg) → k ≤ (toChunks inp.content).length →
      scanChunksLoop ((toChunks inp.content).take k) initLoopState = LoopOut.finished st →
      (is_infected showR inp).infected = false ∧
      (is_infected showR inp).reason = some ("Scan error: " ++ msg)) := by
  refine ⟨reason_always_some showR inp, ?_⟩
  intro k msg st hf hne herr hk hloop
  rw [is_infected_error showR inp k msg st hf hne herr hk hloop]
  exact ⟨rfl, rfl⟩

theorem scan_error_handling_C2_witness :
    (is_infected (fun _ => "") ⟨"f.bin", true, [1, 2, 3], some (0, "disk gone")⟩).infected
        = false ∧
    (is_infected (fun _ => "") ⟨"f.bin", true, [1, 2, 3], some (0, "disk gone")⟩).reason
        = some ("Scan error: " ++ "disk gone") :=
  (scan_error_handling_C2 (fun _ => "") ⟨"f.bin", true, [1, 2, 3], some (0, "disk gone")⟩).2
    0 "disk gone" initLoopState rfl (by decide) rfl (by decide) rfl

/-- Claim C3: whenever the returned result has `infected = true`, its
`reason` is non-null and names exactly one of the six detection
categories; and every returned result has a non-null `reason`. -/
theorem infected_reason_exactly_one_category_C3 (showR : ℝ → String) (inp : ScanInput) :
    ((is_infected showR inp).infected = true →
      ∃ s, (is_infected showR inp).reason = some s ∧ ∃! c, reasonNames c s) ∧
    (is_infected showR inp).reason ≠ none := by
  refine ⟨?_, reason_always_some showR inp⟩
  intro hinf
  rcases is_infected_shape showR inp with ⟨h1, -⟩ | ⟨-, hrest⟩
  · rw [h1] at hinf
    exact absurd hinf (by decide)
  · rcases hrest with ⟨sd, -, -, hr⟩ | hr | ⟨l, hr⟩ | ⟨l, hr⟩ | hr | hr
    · exact ⟨_, hr, uniq_cat_sig sd.2⟩
    · exact ⟨_, hr, uniq_cat_js⟩
    · exact ⟨_, hr, uniq_cat_md5 l⟩
    · exact ⟨_, hr, uniq_cat_sha256 l⟩
    · exact ⟨_, hr, uniq_cat_suspicious⟩
    · exact ⟨_, hr, uniq_cat_shellcode⟩

theorem infected_reason_exactly_one_category_C3_witness :
    ∃ s, (is_infected (fun _ => "") ⟨"mz.bin", true, [77, 90], none⟩).reason = some s ∧
      ∃! c, reasonNames c s :=
  (infected_reason_exactly_one_category_C3 (fun _ => "")
    ⟨"mz.bin", true, [77, 90], none⟩).1 rfl

/-- Claim C6: feeding chunks one by one to the digest accumulators and
finalizing yields the same hex digests as a single-shot digest of the
concatenated content, and chunk-size variation does not change the
finalized digests. -/
theorem digest_chunking_invariant_C6 (chunks : List (List Nat)) :
    (md5Hex (chunks.foldl digestUpdate digestInit) = md5Hex chunks.flatten ∧
     sha256Hex (chunks.foldl digestUpdate digestInit) = sha256Hex chunks.flatten) ∧
    (∀ (n m : Nat) (content : List Nat), 0 < n → 0 < m →
      md5Hex ((chunksOf n content).foldl digestUpdate digestInit) =
        md5Hex ((chunksOf m content).foldl digestUpdate digestInit) ∧
      sha256Hex ((chunksOf n content).foldl digestUpdate digestInit) =
        sha256Hex ((chunksOf m content).foldl digestUpdate digestInit)) := by
  constructor
  · rw [foldl_digestUpdate]
    simp [digestInit]
  · intro n m content hn hm
    rw [foldl_digestUpdate, foldl_digestUpdate, chunksOf_flatten n content hn,
      chunksOf_flatten m content hm]
    exact ⟨rfl, rfl⟩

theorem digest_chunking_invariant_C6_witness :
    (md5Hex (([[1], [2, 3]] : List (List Nat)).foldl digestUpdate digestInit) =
      md5Hex ([[1], [2, 3]] : List (List Nat)).flatten) ∧
    md5Hex ((chunksOf 1 [1, 2, 3]).foldl digestUpdate digestInit) =
      md5Hex ((chunksOf 2 [1, 2, 3]).foldl digestUpdate digestInit) :=
  ⟨(digest_chunking_invariant_C6 [[1], [2, 3]]).1.1,
   ((digest_chunking_invariant_C6 []).2 1 2 [1, 2, 3] (by decide) (by decide)).1⟩

/-- Claim C7: validation short-circuits — a path that is not a regular
file yields `{infected := false, reason := "File does not exist"}` and an
existing zero-length file yields `{infected := false, reason := "File is
empty"}` with `size = 0`; in both cases the hashes stay null and the
entropy stays `0.0`. -/
theorem validation_short_circuit_C7 (showR : ℝ → String) (inp : ScanInput) :
    (inp.isfile = false →
      is_infected showR inp =
        ⟨false, some "File does not exist", basename inp.path, 0, ⟨none, none⟩, 0⟩) ∧
    (inp.isfile = true → inp.content = [] →
      is_infected showR inp =
        ⟨false, some "File is empty", basename inp.path, 0, ⟨none, none⟩, 0⟩) :=
  ⟨fun hf => is_infected_not_file showR inp hf,
   fun hf he => is_infected_empty showR inp hf he⟩

theorem validation_short_circuit_C7_witness :
    is_infected (fun _ => "") ⟨"no/such.bin", false, [], none⟩ =
      ⟨false, some "File does not exist", basename "no/such.bin", 0, ⟨none, none⟩, 0⟩ ∧
    is_infected (fun _ => "") ⟨"empty.bin", true, [], none⟩ =
      ⟨false, some "File is empty", basename "empty.bin", 0, ⟨none, none⟩, 0⟩ :=
  ⟨(validation_short_circuit_C7 (fun _ => "") ⟨"no/such.bin", false, [], none⟩).1 rfl,
   (validation_short_circuit_C7 (fun _ => "") ⟨"empty.bin", true, [], none⟩).2 rfl rfl⟩

/-- Claim C9: the entropy computation never divides by zero — at the only
call site (after streaming a validated, non-empty file of genuine bytes)
the histogram total `byte_counts.sum()` equals the file length and is
positive. -/
theorem entropy_no_division_by_zero_C9 (content : List Nat) (st : LoopState)
    (hne : content ≠ []) (hb : ∀ b ∈ content, b < 256)
    (hloop : scanChunksLoop (toChunks content) initLoopState = LoopOut.finished st) :
    st.byteCounts.sum = content.length ∧ 0 < st.byteCounts.sum := by
  have hcnt := (scanChunksLoop_finished_inv _ _ _ hloop).2
  rw [toChunks_flatten] at hcnt
  have hlen : initLoopState.byteCounts.length = 256 := by simp [initLoopState]
  have hsum : (addCounts initLoopState.byteCounts content).sum =
      initLoopState.byteCounts.sum + content.length :=
    addCounts_sum _ _ (fun x hx => by rw [hlen]; exact hb x hx)
  have hzero : initLoopState.byteCounts.sum = 0 := by simp [initLoopState]
  constructor
  · rw [hcnt, hsum, hzero, Nat.zero_add]
  · rw [hcnt, hsum, hzero, Nat.zero_add]
    exact List.length_pos.mpr hne

theorem entropy_no_division_by_zero_C9_witness :
    (⟨true, false, false, false, addCounts (List.replicate 256 0) [1, 2, 3],
        [1, 2, 3]⟩ : LoopState).byteCounts.sum = ([1, 2, 3] : List Nat).length ∧
    0 < (⟨true, false, false, false, addCounts (List.replicate 256 0) [1, 2, 3],
        [1, 2, 3]⟩ : LoopState).byteCounts.sum :=
  entropy_no_division_by_zero_C9 [1, 2, 3]
    ⟨true, false, false, false, addCounts (List.replicate 256 0) [1, 2, 3], [1, 2, 3]⟩
    (by decide) (by decide) (by decide)

/-- Claim C10: no returned `reason` is ever the high-entropy category —
the entropy is computed with the natural logarithm, so it is bounded by
`log 256 ≈ 5.545`, which never exceeds the threshold `7.9`; the
high-entropy branch is unreachable. -/
theorem high_entropy_branch_unreachable_C10 :
    (∀ counts : List Nat, counts.length = 256 → streamEntropy counts ≤ Real.log 256) ∧
    Real.log 256 < ENTROPY_THRESHOLD ∧
    ∀ (showR : ℝ → String) (inp : ScanInput),
      optionStrLeads "High file entropy" (is_infected showR inp).reason = false := by
  refine ⟨?_, log_256_lt_threshold, ?_⟩
  · intro counts hc
    have hne : counts ≠ [] := by
      intro h
      rw [h] at hc
      simp at hc
    have hb := streamEntropy_le_log_length counts hne
    rw [hc] at hb
    have h256 : ((256 : Nat) : ℝ) = (256 : ℝ) := by norm_num
    rw [h256] at hb
    exact hb
  · intro showR inp
    rcases is_infected_shape showR inp with
      ⟨-, h1 | h1 | h1 | ⟨m, h1⟩⟩ | ⟨-, ⟨sd, -, -, h1⟩ | h1 | ⟨l, h1⟩ | ⟨l, h1⟩ | h1 | h1⟩ <;>
      rw [h1] <;> rfl

theorem high_entropy_branch_unreachable_C10_witness :
    streamEntropy (List.replicate 256 0) ≤ Real.log 256 ∧
    optionStrLeads "High file entropy"
      (is_infected (fun _ => "") ⟨"g.bin", false, [], none⟩).reason = false :=
  ⟨high_entropy_branch_unreachable_C10.1 (List.replicate 256 0) (by decide),
   high_entropy_branch_unreachable_C10.2.2 (fun _ => "") ⟨"g.bin", false, [], none⟩⟩

/-- Claim C4: any file whose first bytes are the Windows PE magic
`0x4D 0x5A` is reported infected with the "Windows PE" signature reason,
and — because the signature check short-circuits before digest
finalization — both hashes stay null, whatever the rest of the content is
(in particular even if its digest would match a blacklist entry). -/
theorem pe_header_short_circuit_C4 (showR : ℝ → String) (inp : ScanInput)
    (hf : inp.isfile = true) (herr : inp.readErrorAt = none)
    (hmz : ∃ rest, inp.content = 77 :: 90 :: rest) :
    (is_infected showR inp).infected = true ∧
    (is_infected showR inp).reason = some "Suspicious executable header: Windows PE (MZ)" ∧
    (is_infected showR inp).hashes = ⟨none, none⟩ := by
  obtain ⟨rest, hco⟩ := hmz
  have hne : inp.content ≠ [] := by
    rw [hco]
    simp
  have htake : inp.content.take 8192 = 77 :: 90 :: rest.take 8190 := by
    rw [hco]
    rfl
  have hchunks : toChunks inp.content =
      (77 :: 90 :: rest.take 8190) :: toChunks (inp.content.drop 8192) := by
    rw [toChunks, chunksOf_cons 8192 inp.content (by norm_num) hne, htake]
    rfl
  have hloop : scanChunksLoop (toChunks inp.content) initLoopState =
      LoopOut.early "Suspicious executable header: Windows PE (MZ)" := by
    rw [hchunks]
    rfl
  rw [is_infected_early showR inp _ hf hne herr hloop]
  exact ⟨rfl, rfl, rfl⟩

theorem pe_header_short_circuit_C4_witness :
    (is_infected (fun _ => "") ⟨"mz2.bin", true, [77, 90, 0], none⟩).infected = true ∧
    (is_infected (fun _ => "") ⟨"mz2.bin", true, [77, 90, 0], none⟩).reason =
      some "Suspicious executable header: Windows PE (MZ)" ∧
    (is_infected (fun _ => "") ⟨"mz2.bin", true, [77, 90, 0], none⟩).hashes =
      ⟨none, none⟩ :=
  pe_header_short_circuit_C4 (fun _ => "") ⟨"mz2.bin", true, [77, 90, 0], none⟩
    rfl rfl ⟨[0], rfl⟩

/-- Claim C5: the post-stream checks fire in fixed priority order with the
MD5 blacklist first — for every file that completes streaming and whose
MD5 digest is blacklisted, the result is infected with the
"Known malware (MD5)" reason, with no condition on the file's entropy or
on the heuristic flags collected during streaming. -/
theorem md5_blacklist_priority_C5 (showR : ℝ → String) (inp : ScanInput)
    (st : LoopState) (label : String)
    (hf : inp.isfile = true) (hne : inp.content ≠ []) (herr : inp.readErrorAt = none)
    (hloop : scanChunksLoop (toChunks inp.content) initLoopState = LoopOut.finished st)
    (hmd : KNOWN_BAD_MD5.lookup (md5Hex inp.content) = some label) :
    (is_infected showR inp).infected = true ∧
    (is_infected showR inp).reason = some ("Known malware (MD5): " ++ label) := by
  have hfed : st.fed = inp.content := by
    have h := (scanChunksLoop_finished_inv _ _ _ hloop).1
    rw [toChunks_flatten] at h
    simpa [initLoopState, digestInit] using h
  rw [is_infected_finished showR inp st hf hne herr hloop,
    postStream_md5_hit showR st _ label (by rw [hfed]; exact hmd)]
  exact ⟨rfl, rfl⟩

theorem md5_blacklist_priority_C5_witness :
    (is_infected (fun _ => "") ⟨"eicar.com", true, [88, 53, 79, 33, 80, 37, 64, 65, 80, 91, 52, 92, 80, 90, 88, 53, 52, 40, 80, 94, 41, 55, 67, 67, 41, 55, 125, 36, 69, 73, 67, 65, 82, 45, 83, 84, 65, 78, 68, 65, 82, 68, 45, 65, 78, 84, 73, 86, 73, 82, 85, 83, 45, 84, 69, 83, 84, 45, 70, 73, 76, 69, 33, 36, 72, 43, 72, 42], none⟩).infected = true ∧
    (is_infected (fun _ => "") ⟨"eicar.com", true, [88, 53, 79, 33, 80, 37, 64, 65, 80, 91, 52, 92, 80, 90, 88, 53, 52, 40, 80, 94, 41, 55, 67, 67, 41, 55, 125, 36, 69, 73, 67, 65, 82, 45, 83, 84, 65, 78, 68, 65, 82, 68, 45, 65, 78, 84, 73, 86, 73, 82, 85, 83, 45, 84, 69, 83, 84, 45, 70, 73, 76, 69, 33, 36, 72, 43, 72, 42], none⟩).reason =
      some ("Known malware (MD5): " ++ "EICAR Test (Production Placeholder)") :=
  md5_blacklist_priority_C5 (fun _ => "")
    ⟨"eicar.com", true, [88, 53, 79, 33, 80, 37, 64, 65, 80, 91, 52, 92, 80, 90, 88, 53, 52, 40, 80, 94, 41, 55, 67, 67, 41, 55, 125, 36, 69, 73, 67, 65, 82, 45, 83, 84, 65, 78, 68, 65, 82, 68, 45, 65, 78, 84, 73, 86, 73, 82, 85, 83, 45, 84, 69, 83, 84, 45, 70, 73, 76, 69, 33, 36, 72, 43, 72, 42], none⟩
    ⟨true, false, false, false,
      addCounts (List.replicate 256 0) [88, 53, 79, 33, 80, 37, 64, 65, 80, 91, 52, 92, 80, 90, 88, 53, 52, 40, 80, 94, 41, 55, 67, 67, 41, 55, 125, 36, 69, 73, 67, 65, 82, 45, 83, 84, 65, 78, 68, 65, 82, 68, 45, 65, 78, 84, 73, 86, 73, 82, 85, 83, 45, 84, 69, 83, 84, 45, 70, 73, 76, 69, 33, 36, 72, 43, 72, 42],
      [88, 53, 79, 33, 80, 37, 64, 65, 80, 91, 52, 92, 80, 90, 88, 53, 52, 40, 80, 94, 41, 55, 67, 67, 41, 55, 125, 36, 69, 73, 67, 65, 82, 45, 83, 84, 65, 78, 68, 65, 82, 68, 45, 65, 78, 84, 73, 86, 73, 82, 85, 83, 45, 84, 69, 83, 84, 45, 70, 73, 76, 69, 33, 36, 72, 43, 72, 42]⟩
    "EICAR Test (Production Placeholder)" rfl (by decide) rfl (by decide) (by decide)

/-- Claim C1 (code bug): the `entropy` field is not Shannon entropy in
bits with range [0, 8] — the code computes it with the natural logarithm.
At the failing input (a 256-byte file containing every byte value exactly
once) the scan completes clean and the entropy field equals
`log 256 ≈ 5.545` (nats), not a value approaching `8.0`. -/
theorem entropy_natural_log_not_bits_C1 (showR : ℝ → String) :
    (is_infected showR ⟨"uniform.bin", true, List.range 256, none⟩).entropy =
      Real.log 256 ∧
    (is_infected showR ⟨"uniform.bin", true, List.range 256, none⟩).infected = false ∧
    Real.log 256 < 6 := by
  have hloop : scanChunksLoop (toChunks (List.range 256)) initLoopState =
      LoopOut.finished ⟨true, false, false, false, List.replicate 256 1,
        List.range 256⟩ := by decide
  have h5 : KNOWN_BAD_MD5.lookup (md5Hex (List.range 256)) = none := by decide
  have hsha : KNOWN_BAD_SHA256.lookup (sha256Hex (List.range 256)) = none := by decide
  rw [is_infected_finished showR ⟨"uniform.bin", true, List.range 256, none⟩
      ⟨true, false, false, false, List.replicate 256 1, List.range 256⟩
      rfl (by decide) rfl hloop,
    postStream_clean showR
      ⟨true, false, false, false, List.replicate 256 1, List.range 256⟩ _
      h5 hsha (by decide) rfl rfl]
  refine ⟨streamEntropy_replicate_one, rfl, ?_⟩
  have h2 : Real.log 2 < 0.6931471808 := Real.log_two_lt_d9
  have h256 : (256 : ℝ) = 2 ^ 8 := by norm_num
  rw [h256, Real.log_pow]
  push_cast
  nlinarith

/-! ## Claim C8 infrastructure: the 8202-byte NOP-sled-straddling file -/

theorem chunksOf64_replicate_zeros :
    ∀ (q : Nat) (t : List Nat),
      chunksOf 64 (List.replicate (64 * q) 0 ++ t) =
        List.replicate q (List.replicate 64 0) ++ chunksOf 64 t := by
  intro q
  induction q with
  | zero => intro t; simp
  | succ p ih =>
    intro t
    have h1 : 64 * (p + 1) = 64 + 64 * p := by ring
    rw [h1, List.replicate_add, List.append_assoc,
      chunksOf_cons 64 _ (by norm_num) (by simp),
      List.take_left' (by simp), List.drop_left' (by simp), ih, List.replicate_succ]
    rfl

theorem processChunk_quiet (st : LoopState) (chunk : List Nat)
    (hh : st.headerChecked = true) (hpdf : st.pdfChecked = false)
    (hsus : SUSPICIOUS_STRINGS.any (fun s => containsSeq s (chunk.map lowerByte)) = false)
    (hnop : containsSeq nopSled chunk = false) :
    processChunk st chunk = ChunkOut.continueWith (chunkStart st chunk) := by
  have h1 : headerPhase (chunkStart st chunk) chunk =
      ChunkOut.continueWith (chunkStart st chunk) := by
    rw [headerPhase, if_pos (show (chunkStart st chunk).headerChecked = true from hh)]
  have hp2 : (chunkStart st chunk).pdfChecked = false := hpdf
  rw [processChunk, h1]
  simp only [hp2, Bool.false_and, Bool.false_eq_true, if_false, hsus, hnop]

theorem processChunk_quiet_first (st : LoopState) (chunk : List Nat)
    (hh : st.headerChecked = false) (hpdf : st.pdfChecked = false)
    (hmh : matchingHeader chunk = none)
    (hsus : SUSPICIOUS_STRINGS.any (fun s => containsSeq s (chunk.map lowerByte)) = false)
    (hnop : containsSeq nopSled chunk = false) :
    processChunk st chunk =
      ChunkOut.continueWith { chunkStart st chunk with headerChecked := true } := by
  have h1 : headerPhase (chunkStart st chunk) chunk =
      ChunkOut.continueWith { chunkStart st chunk with headerChecked := true } := by
    rw [headerPhase,
      if_neg (show ¬ (chunkStart st chunk).headerChecked = true by
        rw [show (chunkStart st chunk).headerChecked = st.headerChecked from rfl, hh]
        simp),
      hmh]
  have hp3 : (chunkStart st chunk).pdfChecked = false := hpdf
  rw [processChunk, h1]
  simp only [hp3, Bool.false_and, Bool.false_eq_true, if_false, hsus, hnop]

theorem c8_md5_value :
    md5Hex (List.replicate 8182 (0 : Nat) ++ List.replicate 20 144) = "6a023653abd2bdc46b1a6d51a4f84478" := by
  have hlen : ((List.replicate 8182 (0 : Nat) ++ List.replicate 20 144)).length = 8202 := by
    rw [List.length_append, List.length_replicate, List.length_replicate]
  have hpad : md5Pad (List.replicate 8182 (0 : Nat) ++ List.replicate 20 144) =
      List.replicate (64 * 127) 0 ++ ((List.replicate 54 0 ++ List.replicate 10 144) ++ (List.replicate 10 144 ++ 128 :: (List.replicate 45 0 ++ [80, 0, 1, 0, 0, 0, 0, 0]))) := by
    rw [md5Pad, hlen, show padZeros 8202 = 45 from by decide,
      show leBytes8 ((8 * 8202) % 18446744073709551616) = [80, 0, 1, 0, 0, 0, 0, 0] from by decide,
      show (8182 : Nat) = 64 * 127 + 54 from rfl, List.replicate_add,
      show (20 : Nat) = 10 + 10 from rfl, List.replicate_add]
    simp only [List.append_assoc]
  have hchunks : chunksOf 64 (md5Pad (List.replicate 8182 (0 : Nat) ++ List.replicate 20 144)) =
      List.replicate 127 (List.replicate 64 0) ++ [(List.replicate 54 0 ++ List.replicate 10 144), (List.replicate 10 144 ++ 128 :: (List.replicate 45 0 ++ [80, 0, 1, 0, 0, 0, 0, 0]))] := by
    have hBB : chunksOf 64 ((List.replicate 54 0 ++ List.replicate 10 144) ++ (List.replicate 10 144 ++ 128 :: (List.replicate 45 0 ++ [80, 0, 1, 0, 0, 0, 0, 0]))) = [(List.replicate 54 0 ++ List.replicate 10 144), (List.replicate 10 144 ++ 128 :: (List.replicate 45 0 ++ [80, 0, 1, 0, 0, 0, 0, 0]))] := by
      rw [chunksOf_cons 64 _ (by norm_num) (by simp),
        List.take_left' (by simp), List.drop_left' (by simp),
        chunksOf_cons 64 _ (by norm_num) (by simp),
        List.take_of_length_le (by simp), List.drop_eq_nil_of_le (by simp)]
      rfl
    rw [hpad, chunksOf64_replicate_zeros 127 _, hBB]
  have hm0 : List.foldl md5Compress md5Init (List.replicate 16 (List.replicate 64 0)) = ⟨1716419077, 2838288300, 1962477682, 1550889291⟩ := by decide
  have hm1 : List.foldl md5Compress ⟨1716419077, 2838288300, 1962477682, 1550889291⟩ (List.replicate 16 (List.replicate 64 0)) = ⟨2343284969, 632201075, 1441832905, 3835966517⟩ := by decide
  have hm2 : List.foldl md5Compress ⟨2343284969, 632201075, 1441832905, 3835966517⟩ (List.replicate 16 (List.replicate 64 0)) = ⟨3796985565, 1546081103, 1194047969, 771667723⟩ := by decide
  have hm3 : List.foldl md5Compress ⟨3796985565, 1546081103, 1194047969, 771667723⟩ (List.replicate 16 (List.replicate 64 0)) = ⟨517519678, 1599604297, 2423327625, 2124357335⟩ := by decide
  have hm4 : List.foldl md5Compress ⟨517519678, 1599604297, 2423327625, 2124357335⟩ (List.replicate 16 (List.replicate 64 0)) = ⟨2314504280, 1189917530, 1278573204, 3864454922⟩ := by decide
  have hm5 : List.foldl md5Compress ⟨2314504280, 1189917530, 1278573204, 3864454922⟩ (List.replicate 16 (List.replicate 64 0)) = ⟨1769295612, 142858784, 3821054837, 3879668648⟩ := by decide
  have hm6 : List.foldl md5Compress ⟨1769295612, 142858784, 3821054837, 3879668648⟩ (List.replicate 16 (List.replicate 64 0)) = ⟨1493527529, 3652119361, 1048143672, 2664774624⟩ := by decide
  have hm7 : List.foldl md5Compress ⟨1493527529, 3652119361, 1048143672, 2664774624⟩ (List.replicate 15 (List.replicate 64 0)) = ⟨1038633121, 959515681, 166487377, 1482340325⟩ := by decide
  have hzfold : List.foldl md5Compress md5Init (List.replicate 127 (List.replicate 64 0)) = ⟨1038633121, 959515681, 166487377, 1482340325⟩ := by
    rw [show (127 : Nat) = 16 + 111 from rfl, List.replicate_add, List.foldl_append, hm0,
      show (111 : Nat) = 16 + 95 from rfl, List.replicate_add, List.foldl_append, hm1,
      show (95 : Nat) = 16 + 79 from rfl, List.replicate_add, List.foldl_append, hm2,
      show (79 : Nat) = 16 + 63 from rfl, List.replicate_add, List.foldl_append, hm3,
      show (63 : Nat) = 16 + 47 from rfl, List.replicate_add, List.foldl_append, hm4,
      show (47 : Nat) = 16 + 31 from rfl, List.replicate_add, List.foldl_append, hm5,
      show (31 : Nat) = 16 + 15 from rfl, List.replicate_add, List.foldl_append, hm6]
    exact hm7
  have hb127 : md5Compress ⟨1038633121, 959515681, 166487377, 1482340325⟩ (List.replicate 54 0 ++ List.replicate 10 144) = ⟨998721904, 2026112783, 3746392304, 881488653⟩ := by decide
  have hb128 : md5Compress ⟨998721904, 2026112783, 3746392304, 881488653⟩ (List.replicate 10 144 ++ 128 :: (List.replicate 45 0 ++ [80, 0, 1, 0, 0, 0, 0, 0])) = ⟨1396048490, 3300774571, 1366104683, 2017786020⟩ := by decide
  simp only [md5Hex, md5Blocks]
  rw [hchunks, List.foldl_append, hzfold]
  simp only [List.foldl_cons, List.foldl_nil]
  rw [hb127, hb128]
  decide

theorem c8_sha256_value :
    sha256Hex (List.replicate 8182 (0 : Nat) ++ List.replicate 20 144) = "1e9413f52deb654e3057fb9212198ad5eaecb7116fa3ea4bb3468230553c8228" := by
  have hlen : ((List.replicate 8182 (0 : Nat) ++ List.replicate 20 144)).length = 8202 := by
    rw [List.length_append, List.length_replicate, List.length_replicate]
  have hpad : shaPad (List.replicate 8182 (0 : Nat) ++ List.replicate 20 144) =
      List.replicate (64 * 127) 0 ++ ((List.replicate 54 0 ++ List.replicate 10 144) ++ (List.replicate 10 144 ++ 128 :: (List.replicate 45 0 ++ [0, 0, 0, 0, 0, 1, 0, 80]))) := by
    rw [shaPad, hlen, show padZeros 8202 = 45 from by decide,
      show beBytes8 ((8 * 8202) % 18446744073709551616) = [0, 0, 0, 0, 0, 1, 0, 80] from by decide,
      show (8182 : Nat) = 64 * 127 + 54 from rfl, List.replicate_add,
      show (20 : Nat) = 10 + 10 from rfl, List.replicate_add]
    simp only [List.append_assoc]
  have hchunks : chunksOf 64 (shaPad (List.replicate 8182 (0 : Nat) ++ List.replicate 20 144)) =
      List.replicate 127 (List.replicate 64 0) ++ [(List.replicate 54 0 ++ List.replicate 10 144), (List.replicate 10 144 ++ 128 :: (List.replicate 45 0 ++ [0, 0, 0, 0, 0, 1, 0, 80]))] := by
    have hBB : chunksOf 64 ((List.replicate 54 0 ++ List.replicate 10 144) ++ (List.replicate 10 144 ++ 128 :: (List.replicate 45 0 ++ [0, 0, 0, 0, 0, 1, 0, 80]))) = [(List.replicate 54 0 ++ List.replicate 10 144), (List.replicate 10 144 ++ 128 :: (List.replicate 45 0 ++ [0, 0, 0, 0, 0, 1, 0, 80]))] := by
      rw [chunksOf_cons 64 _ (by norm_num) (by simp),
        List.take_left' (by simp), List.drop_left' (by simp),
        chunksOf_cons 64 _ (by norm_num) (by simp),
        List.take_of_length_le (by simp), List.drop_eq_nil_of_le (by simp)]
      rfl
    rw [hpad, chunksOf64_replicate_zeros 127 _, hBB]
  have hm0 : List.foldl shaCompress shaInit (List.replicate 16 (List.replicate 64 0)) = ⟨2482666008, 3411149588, 148021073, 283388902, 4232710110, 1292788994, 1364642173, 1927301839⟩ := by decide
  have hm1 : List.foldl shaCompress ⟨2482666008, 3411149588, 148021073, 283388902, 4232710110, 1292788994, 1364642173, 1927301839⟩ (List.replicate 16 (List.replicate 64 0)) = ⟨2831042490, 1651420634, 1782319497, 3504228325, 3638480515, 1298525289, 1770015330, 3663456920⟩ := by decide
  have hm2 : List.foldl shaCompress ⟨2831042490, 1651420634, 1782319497, 3504228325, 3638480515, 1298525289, 1770015330, 3663456920⟩ (List.replicate 16 (List.replicate 64 0)) = ⟨4275648138, 434773497, 899216757, 3856824769, 3449991295, 2125942436, 4073425415, 2776528861⟩ := by decide
  have hm3 : List.foldl shaCompress ⟨4275648138, 434773497, 899216757, 3856824769, 3449991295, 2125942436, 4073425415, 2776528861⟩ (List.replicate 16 (List.replicate 64 0)) = ⟨2493971508, 2315949325, 122404641, 482356285, 1321716649, 3537661952, 2134889, 3277647604⟩ := by decide
  have hm4 : List.foldl shaCompress ⟨2493971508, 2315949325, 122404641, 482356285, 1321716649, 3537661952, 2134889, 3277647604⟩ (List.replicate 16 (List.replicate 64 0)) = ⟨3831145693, 1742688637, 783741673, 3388735502, 3182611020, 3055776987, 4048750661, 1197096896⟩ := by decide
  have hm5 : List.foldl shaCompress ⟨3831145693, 1742688637, 783741673, 3388735502, 3182611020, 3055776987, 4048750661, 1197096896⟩ (List.replicate 16 (List.replicate 64 0)) = ⟨1983244528, 1520973693, 2263460675, 1136988732, 895102285, 2806747624, 2802802891, 3087124625⟩ := by decide
  have hm6 : List.foldl shaCompress ⟨1983244528, 1520973693, 2263460675, 1136988732, 895102285, 2806747624, 2802802891, 3087124625⟩ (List.replicate 16 (List.replicate 64 0)) = ⟨1082677848, 866248226, 4197071225, 3552610657, 2964147557, 2160717343, 2379800751, 3228825948⟩ := by decide
  have hm7 : List.foldl shaCompress ⟨1082677848, 866248226, 4197071225, 3552610657, 2964147557, 2160717343, 2379800751, 3228825948⟩ (List.replicate 15 (List.replicate 64 0)) = ⟨79499335, 741220258, 344397522, 3843423234, 4163432253, 1328823362, 700593775, 2860416336⟩ := by decide
  have hzfold : List.foldl shaCompress shaInit (List.replicate 127 (List.replicate 64 0)) = ⟨79499335, 741220258, 344397522, 3843423234, 4163432253, 1328823362, 700593775, 2860416336⟩ := by
    rw [show (127 : Nat) = 16 + 111 from rfl, List.replicate_add, List.foldl_append, hm0,
      show (111 : Nat) = 16 + 95 from rfl, List.replicate_add, List.foldl_append, hm1,
      show (95 : Nat) = 16 + 79 from rfl, List.replicate_add, List.foldl_append, hm2,
      show (79 : Nat) = 16 + 63 from rfl, List.replicate_add, List.foldl_append, hm3,
      show (63 : Nat) = 16 + 47 from rfl, List.replicate_add, List.foldl_append, hm4,
      show (47 : Nat) = 16 + 31 from rfl, List.replicate_add, List.foldl_append, hm5,
      show (31 : Nat) = 16 + 15 from rfl, List.replicate_add, List.foldl_append, hm6]
    exact hm7
  have hb127 : shaCompress ⟨79499335, 741220258, 344397522, 3843423234, 4163432253, 1328823362, 700593775, 2860416336⟩ (List.replicate 54 0 ++ List.replicate 10 144) = ⟨53705571, 478298785, 1957603037, 4253962546, 630689233, 3209995077, 2876457462, 2627475874⟩ := by decide
  have hb128 : shaCompress ⟨53705571, 478298785, 1957603037, 4253962546, 630689233, 3209995077, 2876457462, 2627475874⟩ (List.replicate 10 144 ++ 128 :: (List.replicate 45 0 ++ [0, 0, 0, 0, 0, 1, 0, 80])) = ⟨513020917, 770401614, 811072402, 303663829, 3941381905, 1873013323, 3007742512, 1430028840⟩ := by decide
  simp only [sha256Hex, shaBlocks]
  rw [hchunks, List.foldl_append, hzfold]
  simp only [List.foldl_cons, List.foldl_nil]
  rw [hb127, hb128]
  decide

theorem c8_ne_nil (n m a b : Nat) (hn : n ≠ 0) :
    List.replicate n a ++ List.replicate m b ≠ [] := by
  intro h
  have h2 := congrArg List.length h
  simp at h2
  exact hn h2.1

theorem scanChunksLoop_cons_continue (rest : List (List Nat)) {st st' : LoopState}
    {chunk : List Nat} (h : processChunk st chunk = ChunkOut.continueWith st') :
    scanChunksLoop (chunk :: rest) st = scanChunksLoop rest st' := by
  rw [scanChunksLoop, h]

theorem scanChunksLoop_nil (st : LoopState) : scanChunksLoop [] st = LoopOut.finished st :=
  rfl



theorem chunkStart_byteCounts (st : LoopState) (c : List Nat) :
    (chunkStart st c).byteCounts = addCounts st.byteCounts c := rfl

theorem chunkStart_fed (st : LoopState) (c : List Nat) :
    (chunkStart st c).fed = st.fed ++ c := rfl

theorem chunkStart_susp (st : LoopState) (c : List Nat) :
    (chunkStart st c).suspiciousContent = st.suspiciousContent := rfl

theorem chunkStart_shell (st : LoopState) (c : List Nat) :
    (chunkStart st c).shellcodeDetected = st.shellcodeDetected := rfl

theorem setChecked_byteCounts (st : LoopState) :
    ({ st with headerChecked := true } : LoopState).byteCounts = st.byteCounts := rfl

theorem setChecked_fed (st : LoopState) :
    ({ st with headerChecked := true } : LoopState).fed = st.fed := rfl

theorem setChecked_susp (st : LoopState) :
    ({ st with headerChecked := true } : LoopState).suspiciousContent =
      st.suspiciousContent := rfl

theorem setChecked_shell (st : LoopState) :
    ({ st with headerChecked := true } : LoopState).shellcodeDetected =
      st.shellcodeDetected := rfl

theorem initLoopState_byteCounts : initLoopState.byteCounts = List.replicate 256 0 := rfl

theorem initLoopState_fed : initLoopState.fed = [] := rfl

theorem initLoopState_susp : initLoopState.suspiciousContent = false := rfl

theorem initLoopState_shell : initLoopState.shellcodeDetected = false := rfl

/-- Claim C8: the shellcode-run detector tests each 8192-byte chunk
independently, so a NOP sled that straddles the chunk boundary is missed —
the 8202-byte file of 8182 zero bytes followed by twenty `0x90` bytes
contains a run of twenty `0x90`s, neither of its two chunks does, and its
scan returns clean. -/
theorem nop_sled_chunk_boundary_miss_C8 (showR : ℝ → String) :
    containsSeq nopSled (List.replicate 8182 (0 : Nat) ++ List.replicate 20 144) = true ∧
    containsSeq nopSled
      ((List.replicate 8182 (0 : Nat) ++ List.replicate 20 144).take 8192) = false ∧
    containsSeq nopSled
      ((List.replicate 8182 (0 : Nat) ++ List.replicate 20 144).drop 8192) = false ∧
    (is_infected showR ⟨"nops.bin", true,
        List.replicate 8182 (0 : Nat) ++ List.replicate 20 144, none⟩).infected = false ∧
    (is_infected showR ⟨"nops.bin", true,
        List.replicate 8182 (0 : Nat) ++ List.replicate 20 144, none⟩).reason =
      some "Scan completed: No threats detected" := by
  have htake : (List.replicate 8182 (0 : Nat) ++ List.replicate 20 144).take 8192 =
      List.replicate 8182 0 ++ List.replicate 10 144 := by
    rw [List.take_append_eq_append_take,
      List.take_of_length_le (le_of_eq_of_le (List.length_replicate 8182 0) (by decide)),
      List.take_replicate, List.length_replicate,
      show ((8192 - 8182) ⊓ 20 : Nat) = 10 from by decide]
  have hdrop : (List.replicate 8182 (0 : Nat) ++ List.replicate 20 144).drop 8192 =
      List.replicate 10 144 := by
    rw [List.drop_append_eq_append_drop,
      List.drop_eq_nil_of_le (le_of_eq_of_le (List.length_replicate 8182 0) (by decide)),
      List.drop_replicate, List.length_replicate,
      show (20 - (8192 - 8182) : Nat) = 10 from by decide, List.nil_append]
  have hchunks : toChunks (List.replicate 8182 (0 : Nat) ++ List.replicate 20 144) =
      [List.replicate 8182 0 ++ List.replicate 10 144, List.replicate 10 144] := by
    rw [toChunks, chunksOf_cons 8192 _ (by norm_num) (c8_ne_nil _ _ _ _ (by norm_num)),
      htake, hdrop,
      chunksOf_cons 8192 _ (by norm_num) (by simp),
      List.take_of_length_le (by simp), List.drop_eq_nil_of_le (by simp)]
    rfl
  have f1 : listLeads ([77, 90] : List Nat)
      (List.replicate 8182 0 ++ List.replicate 10 144) = false :=
    @listLeads_replicate_head 77 0 [90] rfl 8182 (by decide) (List.replicate 10 144)
  have f2 : listLeads ([127, 69, 76, 70] : List Nat)
      (List.replicate 8182 0 ++ List.replicate 10 144) = false :=
    @listLeads_replicate_head 127 0 [69, 76, 70] rfl 8182 (by decide)
      (List.replicate 10 144)
  have f3 : listLeads ([254, 237, 250, 206] : List Nat)
      (List.replicate 8182 0 ++ List.replicate 10 144) = false :=
    @listLeads_replicate_head 254 0 [237, 250, 206] rfl 8182 (by decide)
      (List.replicate 10 144)
  have f4 : listLeads ([254, 237, 250, 207] : List Nat)
      (List.replicate 8182 0 ++ List.replicate 10 144) = false :=
    @listLeads_replicate_head 254 0 [237, 250, 207] rfl 8182 (by decide)
      (List.replicate 10 144)
  have f5 : listLeads pdfSig (List.replicate 8182 (0 : Nat) ++ List.replicate 10 144)
      = false :=
    @listLeads_replicate_head 37 0 [80, 68, 70, 45] rfl 8182 (by decide)
      (List.replicate 10 144)
  have hmh : matchingHeader (List.replicate 8182 (0 : Nat) ++ List.replicate 10 144)
      = none := by
    rw [matchingHeader, EXECUTABLE_HEADERS]
    simp only [List.find?, f1, f2, f3, f4, f5]
  have hlower : (List.replicate 8182 (0 : Nat) ++ List.replicate 10 144).map lowerByte =
      List.replicate 8182 0 ++ List.replicate 10 144 := by
    rw [List.map_append, List.map_replicate, List.map_replicate,
      show lowerByte 0 = 0 from rfl, show lowerByte 144 = 144 from rfl]
  have g1 : containsSeq (strBytes "bitcoin")
      (List.replicate 8182 (0 : Nat) ++ List.replicate 10 144) = false :=
    @containsSeq_zero_nop_false 98 [105, 116, 99, 111, 105, 110] rfl rfl 8182 10
  have g2 : containsSeq (strBytes "ransom")
      (List.replicate 8182 (0 : Nat) ++ List.replicate 10 144) = false :=
    @containsSeq_zero_nop_false 114 [97, 110, 115, 111, 109] rfl rfl 8182 10
  have g3 : containsSeq (strBytes "encrypt")
      (List.replicate 8182 (0 : Nat) ++ List.replicate 10 144) = false :=
    @containsSeq_zero_nop_false 101 [110, 99, 114, 121, 112, 116] rfl rfl 8182 10
  have g4 : containsSeq (strBytes "decrypt")
      (List.replicate 8182 (0 : Nat) ++ List.replicate 10 144) = false :=
    @containsSeq_zero_nop_false 100 [101, 99, 114, 121, 112, 116] rfl rfl 8182 10
  have g5 : containsSeq (strBytes "cmd.exe /c")
      (List.replicate 8182 (0 : Nat) ++ List.replicate 10 144) = false :=
    @containsSeq_zero_nop_false 99 [109, 100, 46, 101, 120, 101, 32, 47, 99] rfl rfl 8182 10
  have g6 : containsSeq (strBytes "powershell.exe")
      (List.replicate 8182 (0 : Nat) ++ List.replicate 10 144) = false :=
    @containsSeq_zero_nop_false 112
      [111, 119, 101, 114, 115, 104, 101, 108, 108, 46, 101, 120, 101] rfl rfl 8182 10
  have hsusp1 : SUSPICIOUS_STRINGS.any (fun s => containsSeq s
      ((List.replicate 8182 (0 : Nat) ++ List.replicate 10 144).map lowerByte)) = false := by
    rw [hlower, SUSPICIOUS_STRINGS]
    simp only [List.any_cons, List.any_nil, g1, g2, g3, g4, g5, g6, Bool.or_false]
  have hnop1 : containsSeq nopSled
      (List.replicate 8182 (0 : Nat) ++ List.replicate 10 144) = false := by
    have hstrip := @containsSeq_replicate_strip 144 0 (List.replicate 19 144) rfl 8182
      (List.replicate 10 144)
    show containsSeq (144 :: List.replicate 19 144)
      (List.replicate 8182 0 ++ List.replicate 10 144) = false
    rw [hstrip]
    decide
  have hsusp2 : SUSPICIOUS_STRINGS.any (fun s => containsSeq s
      ((List.replicate 10 (144 : Nat)).map lowerByte)) = false := by decide
  have hnop2 : containsSeq nopSled (List.replicate 10 (144 : Nat)) = false := by decide
  have hpc1 := processChunk_quiet_first initLoopState
    (List.replicate 8182 0 ++ List.replicate 10 144) rfl rfl hmh hsusp1 hnop1
  have hpc2 := processChunk_quiet
    ({ chunkStart initLoopState (List.replicate 8182 0 ++ List.replicate 10 144) with
        headerChecked := true })
    (List.replicate 10 144) rfl rfl hsusp2 hnop2
  have hloopFull : scanChunksLoop
      (toChunks (List.replicate 8182 (0 : Nat) ++ List.replicate 20 144)) initLoopState =
      LoopOut.finished (chunkStart
        { chunkStart initLoopState (List.replicate 8182 0 ++ List.replicate 10 144) with
            headerChecked := true }
        (List.replicate 10 144)) := by
    rw [hchunks, scanChunksLoop_cons_continue _ hpc1, scanChunksLoop_cons_continue _ hpc2,
      scanChunksLoop_nil]
  have hfed : (chunkStart
      { chunkStart initLoopState (List.replicate 8182 0 ++ List.replicate 10 144) with
          headerChecked := true }
      (List.replicate 10 144)).fed =
      List.replicate 8182 (0 : Nat) ++ List.replicate 20 144 := by
    rw [chunkStart_fed, setChecked_fed, chunkStart_fed, initLoopState_fed,
      List.nil_append, List.append_assoc]
    rw [show (20 : Nat) = 10 + 10 from rfl, List.replicate_add]
  have hclen : (chunkStart
      { chunkStart initLoopState (List.replicate 8182 0 ++ List.replicate 10 144) with
          headerChecked := true }
      (List.replicate 10 144)).byteCounts.length = 256 := by
    rw [chunkStart_byteCounts, setChecked_byteCounts, chunkStart_byteCounts,
      initLoopState_byteCounts, addCounts_length, addCounts_length, List.length_replicate]
  have hsusF : (chunkStart
      { chunkStart initLoopState (List.replicate 8182 0 ++ List.replicate 10 144) with
          headerChecked := true }
      (List.replicate 10 144)).suspiciousContent = false := by
    rw [chunkStart_susp, setChecked_susp, chunkStart_susp, initLoopState_susp]
  have hshF : (chunkStart
      { chunkStart initLoopState (List.replicate 8182 0 ++ List.replicate 10 144) with
          headerChecked := true }
      (List.replicate 10 144)).shellcodeDetected = false := by
    rw [chunkStart_shell, setChecked_shell, chunkStart_shell, initLoopState_shell]
  have h5 : KNOWN_BAD_MD5.lookup (md5Hex (chunkStart
      { chunkStart initLoopState (List.replicate 8182 0 ++ List.replicate 10 144) with
          headerChecked := true }
      (List.replicate 10 144)).fed) = none := by
    rw [hfed, c8_md5_value]
    decide
  have hshaL : KNOWN_BAD_SHA256.lookup (sha256Hex (chunkStart
      { chunkStart initLoopState (List.replicate 8182 0 ++ List.replicate 10 144) with
          headerChecked := true }
      (List.replicate 10 144)).fed) = none := by
    rw [hfed, c8_sha256_value]
    decide
  refine ⟨?_, ?_, ?_, ?_, ?_⟩
  · have hstrip := @containsSeq_replicate_strip 144 0 (List.replicate 19 144) rfl 8182
      (List.replicate 20 144)
    show containsSeq (144 :: List.replicate 19 144)
      (List.replicate 8182 0 ++ List.replicate 20 144) = true
    rw [hstrip]
    decide
  · rw [htake]
    exact hnop1
  · rw [hdrop]
    exact hnop2
  · rw [is_infected_finished showR
      ⟨"nops.bin", true, List.replicate 8182 (0 : Nat) ++ List.replicate 20 144, none⟩
      (chunkStart
        { chunkStart initLoopState (List.replicate 8182 0 ++ List.replicate 10 144) with
            headerChecked := true }
        (List.replicate 10 144))
      rfl (c8_ne_nil _ _ _ _ (by norm_num)) rfl hloopFull,
      postStream_clean showR _ _ h5 hshaL hclen hsusF hshF]
  · rw [is_infected_finished showR
      ⟨"nops.bin", true, List.replicate 8182 (0 : Nat) ++ List.replicate 20 144, none⟩
      (chunkStart
        { chunkStart initLoopState (List.replicate 8182 0 ++ List.replicate 10 144) with
            headerChecked := true }
        (List.replicate 10 144))
      rfl (c8_ne_nil _ _ _ _ (by norm_num)) rfl hloopFull,
      postStream_clean showR _ _ h5 hshaL hclen hsusF hshF]
